import Mathlib

/-!
# Record-to-view projection layer of the patient dashboard

A shallow embedding of `PatientView.jsx` and the eight tab components under
`components/dashboard/tabs/`, followed by theorems about them.

Modelling conventions.

* `JsVal` is the JSON-like value a consultation document is made of, plus
  `undefined` (the result of reading a missing property).  A number is held
  as `JsNum`: the sign, the significant decimal digits and the position of the
  decimal point that `Number::toString` prints, so that its string form is
  the one JavaScript gives, exponent notation included.  An object is the list
  of its own properties in enumeration order; a well-formed object has
  pairwise distinct keys.
* A component is a function from its `data` prop to `Except JsError Jsx`:
  `Except.error` is a JavaScript exception thrown while the component function
  runs, `Except.ok` is the element tree it returns.
* `Jsx` is the element tree: literal text, a `{value}` child holding a runtime
  value, an element with its props, key and children, and an array child as
  produced by `.map`.  A key is stored as React stores it, converted to a
  string when the element is created.
* React renders the tree a component returns; a `{value}` child that is a plain
  object makes it throw (`renderable`).  `PatientView` is modelled with this
  rendering, since what it shows depends on its tabs rendering.
-/

namespace Hiperhealth

/-! ## JavaScript values -/

/-- A JavaScript number, held the way `Number::toString` reads it.  A finite
number other than zero has a sign, significant decimal digits `s` whose last
digit is not zero, written `10 * lead + (last + 1)`, and the position `point`
of the decimal point: its magnitude is `0.s × 10 ^ point`.  So 72.5 is
`finite false 72 4 2` and 1e21 is `finite false 0 0 22`. -/
inductive JsNum where
  | nan
  | infinity (negative : Bool)
  | zero (negative : Bool)
  | finite (negative : Bool) (lead : Nat) (last : Fin 9) (point : Int)

/-- The significant digits `s` of a finite number, as a natural number. -/
def JsNum.digits (lead : Nat) (last : Fin 9) : Nat := 10 * lead + (last.val + 1)

/-- Removal of the trailing zeros of a decimal numeral. -/
def stripZeros : Nat → Nat → Nat
  | 0, n => n
  | fuel + 1, n => if n % 10 = 0 ∧ n ≠ 0 then stripZeros fuel (n / 10) else n

/-- The number of magnitude `0.s × 10 ^ point`, for any digits `s`: trailing
zeros of `s` are dropped, and no digits at all is zero. -/
def JsNum.decimal (negative : Bool) (s : Nat) (point : Int) : JsNum :=
  match s with
  | 0 => .zero negative
  | m + 1 =>
    .finite negative (stripZeros (m + 1) (m + 1) / 10)
      ⟨stripZeros (m + 1) (m + 1) % 10 - 1, by omega⟩ point

/-- The number that is the natural number `n`, such as an array index or a
length: its digits are those of `n` and the point stands after them. -/
def JsNum.ofNat (n : Nat) : JsNum := JsNum.decimal false n (Nat.toDigits 10 n).length

instance (n : Nat) : OfNat JsNum n := ⟨JsNum.ofNat n⟩

/-- JavaScript `ToBoolean` of a number: false for `NaN` and both zeros. -/
def JsNum.nonzero : JsNum → Bool
  | .nan => false
  | .zero _ => false
  | _ => true

/-- The comparison `x > 0` of a number. -/
def JsNum.positive : JsNum → Bool
  | .infinity negative => !negative
  | .finite negative _ _ _ => !negative
  | _ => false

/-- Whether a number is neither `NaN` nor an infinity. -/
def JsNum.isFinite : JsNum → Bool
  | .nan => false
  | .infinity _ => false
  | _ => true

/-- JSON-like JavaScript values. -/
inductive JsVal where
  | undefined
  | null
  | bool (b : Bool)
  | num (n : JsNum)
  | str (s : String)
  | arr (items : List JsVal)
  | obj (fields : List (String × JsVal))

/-- A JavaScript exception: a `TypeError` of the engine, or the error React
raises while rendering. -/
inductive JsError where
  | typeError (msg : String)
  | reactError (msg : String)
  deriving DecidableEq, Repr

/-- JavaScript `ToBoolean`. -/
def truthy : JsVal → Bool
  | .undefined => false
  | .null => false
  | .bool b => b
  | .num n => n.nonzero
  | .str s => s != ""
  | .arr _ => true
  | .obj _ => true

/-- The test `v == null` (equivalently `v === null || v === undefined`). -/
def isNullish : JsVal → Bool
  | .undefined => true
  | .null => true
  | _ => false

/-- The test `typeof v === 'string'`. -/
def isString : JsVal → Bool
  | .str _ => true
  | _ => false

/-- The test `Array.isArray(v)`. -/
def isArray : JsVal → Bool
  | .arr _ => true
  | _ => false

/-- The test `typeof v === 'object'` (true of `null`, arrays and objects). -/
def typeofObject : JsVal → Bool
  | .null => true
  | .arr _ => true
  | .obj _ => true
  | _ => false

/-- Number of UTF-16 code units of a string, the value of its `length`. -/
def utf16Length (s : String) : Nat :=
  (s.toList.map fun c => if c.toNat < 65536 then 1 else 2).sum

/-- Own-property lookup in an object's property list. -/
def lookupField (k : String) : List (String × JsVal) → JsVal
  | [] => .undefined
  | (k', v) :: rest => if k' = k then v else lookupField k rest

/-- Property read `v.k`, for the property names the components read.  None of
them is a member of a built-in prototype except `length`, which strings and
arrays carry.  Reading a property of `null` or `undefined` throws. -/
def getProp (v : JsVal) (k : String) : Except JsError JsVal :=
  match v with
  | .undefined => .error (.typeError ("Cannot read properties of undefined (reading " ++ k ++ ")"))
  | .null => .error (.typeError ("Cannot read properties of null (reading " ++ k ++ ")"))
  | .bool _ => .ok .undefined
  | .num _ => .ok .undefined
  | .str s => .ok (if k = "length" then .num (JsNum.ofNat (utf16Length s)) else .undefined)
  | .arr xs => .ok (if k = "length" then .num (JsNum.ofNat xs.length) else .undefined)
  | .obj fs => .ok (lookupField k fs)

/-- Optional chaining `v?.k`: `undefined` when `v` is `null` or `undefined`. -/
def optProp (v : JsVal) (k : String) : JsVal :=
  match v with
  | .undefined => .undefined
  | .null => .undefined
  | .bool _ => .undefined
  | .num _ => .undefined
  | .str s => if k = "length" then .num (JsNum.ofNat (utf16Length s)) else .undefined
  | .arr xs => if k = "length" then .num (JsNum.ofNat xs.length) else .undefined
  | .obj fs => lookupField k fs

/-- Destructuring read `const { k } = v` of a value already known to be
truthy: the same as `v.k`, which cannot throw on such a value. -/
def field (v : JsVal) (k : String) : JsVal := optProp v k

/-- Nullish coalescing `a ?? b`. -/
def orElse (a b : JsVal) : JsVal := if isNullish a then b else a

/-- Logical or `a || b`. -/
def jsOr (a b : JsVal) : JsVal := if truthy a then a else b

/-- The digits `ds` of a finite number with the decimal point at position
`n`, laid out as `Number::toString` does: plain digits with trailing zeros up
to 21 places, a decimal point inside the digits, `0.` and up to five zeros
before them, and exponent notation otherwise. -/
def formatDigits (ds : List Char) (n : Int) : List Char :=
  if (ds.length : Int) ≤ n ∧ n ≤ 21 then
    ds ++ List.replicate (n - ds.length).toNat '0'
  else if 0 < n ∧ n ≤ 21 then
    ds.take n.toNat ++ '.' :: ds.drop n.toNat
  else if -6 < n ∧ n ≤ 0 then
    '0' :: '.' :: (List.replicate (-n).toNat '0' ++ ds)
  else
    let exponent := 'e' :: (if n - 1 < 0 then '-' else '+') :: Nat.toDigits 10 (n - 1).natAbs
    match ds with
    | [] => exponent
    | [d] => d :: exponent
    | d :: rest => d :: '.' :: (rest ++ exponent)

/-- The string form of a number, `Number::toString` in radix 10. -/
def numToString : JsNum → String
  | .nan => "NaN"
  | .infinity negative => if negative then "-Infinity" else "Infinity"
  | .zero _ => "0"
  | .finite negative lead last point =>
    String.mk ((if negative then ['-'] else []) ++
      formatDigits (Nat.toDigits 10 (JsNum.digits lead last)) point)

/-- The string form of an array index or of a count, as a template literal
prints it. -/
def indexToString (idx : Nat) : String := numToString (JsNum.ofNat idx)

mutual
/-- JavaScript `ToString`, as applied by `String(v)` and by template literals.
An object prints as `[object Object]` unless it has an own `toString` property,
which in a JSON-like value is not callable and makes the conversion throw. -/
def toStr : JsVal → Except JsError String
  | .undefined => .ok "undefined"
  | .null => .ok "null"
  | .bool b => .ok (if b then "true" else "false")
  | .num n => .ok (numToString n)
  | .str s => .ok s
  | .arr xs => joinComma xs
  | .obj fs =>
    if fs.any (fun p => p.1 == "toString") then
      .error (.typeError "Cannot convert object to primitive value")
    else .ok "[object Object]"
/-- The method `Array.prototype.join` with the default separator `,`; `null` and
`undefined` elements print as the empty string. -/
def joinComma : List JsVal → Except JsError String
  | [] => .ok ""
  | x :: rest =>
    match (if isNullish x then .ok "" else toStr x) with
    | .error e => .error e
    | .ok s =>
      match rest with
      | [] => .ok s
      | _ :: _ =>
        match joinComma rest with
        | .error e => .error e
        | .ok t => .ok (s ++ "," ++ t)
end

/-- White space and line terminators stripped by `String.prototype.trim`. -/
def isJsWhitespace (c : Char) : Bool :=
  let n := c.toNat
  n == 0x09 || n == 0x0A || n == 0x0B || n == 0x0C || n == 0x0D || n == 0x20 ||
  n == 0xA0 || n == 0x1680 || (0x2000 ≤ n && n ≤ 0x200A) || n == 0x2028 ||
  n == 0x2029 || n == 0x202F || n == 0x205F || n == 0x3000 || n == 0xFEFF

/-- The method `String.prototype.trim`. -/
def jsTrim (s : String) : String :=
  String.mk ((s.toList.dropWhile isJsWhitespace).reverse.dropWhile isJsWhitespace).reverse

/-! ## Element trees -/

/-- The element tree a component returns. -/
inductive Jsx where
  | text (s : String)
  | expr (v : JsVal)
  | elem (tag : String) (props : List (String × String)) (key : Option JsVal)
      (children : List Jsx)
  | list (items : List Jsx)

/-- The element `<p className="text-muted">msg</p>` every tab uses for its
no-data message. -/
def mutedP (msg : String) : Jsx :=
  .elem "p" [("className", "text-muted")] none [.text msg]

/-- The element `<Alert variant="info"><strong>Skipped:</strong> msg</Alert>`. -/
def skipAlert (msg : String) : Jsx :=
  .elem "Alert" [("variant", "info")] none
    [.elem "strong" [] none [.text "Skipped:"], .text (" " ++ msg)]

/-- A child value React renders nothing for: `null`, `undefined`, a boolean, or
the empty string. -/
def rendersNothing : Jsx → Bool
  | .expr .undefined => true
  | .expr .null => true
  | .expr (.bool _) => true
  | .expr (.str s) => s == ""
  | _ => false

/-- The children of an element that produce output. -/
def visibleChildren (cs : List Jsx) : List Jsx := cs.filter fun c => !rendersNothing c

mutual
/-- Whether React accepts a runtime value as a child: a string, a number, a
boolean, `null`, `undefined`, or an array of such values; a plain object is
not a valid React child. -/
def validChild : JsVal → Bool
  | .obj _ => false
  | .arr items => validChildren items
  | _ => true
/-- Whether React accepts every value of a list as a child. -/
def validChildren : List JsVal → Bool
  | [] => true
  | v :: rest => validChild v && validChildren rest
end

mutual
/-- Whether React renders an element tree without throwing: every `{value}`
child in it is a valid React child. -/
def renderable : Jsx → Bool
  | .text _ => true
  | .expr v => validChild v
  | .elem _ _ _ children => renderableAll children
  | .list items => renderableAll items
/-- Whether React renders every tree of a list. -/
def renderableAll : List Jsx → Bool
  | [] => true
  | c :: rest => renderable c && renderableAll rest
end

/-- The error React throws on a child that is a plain object. -/
def objectChildError : JsError :=
  .reactError "Objects are not valid as a React child"

/-! ## DemographicsTab.jsx -/

/-- Source: `formatNumeric(value, unit)` in `DemographicsTab.jsx`. -/
def formatNumeric (value : JsVal) (unit : String) : Except JsError String :=
  match value with
  | .null => .ok "Not provided"
  | .undefined => .ok "Not provided"
  | v => do
    let s ← toStr v
    pure (s ++ " " ++ unit)

/-- The column `<Col md={6}><p><strong>label</strong> {value}</p></Col>`. -/
def fieldCol (label : String) (value : JsVal) : Jsx :=
  .elem "Col" [("md", "6")] none
    [.elem "p" [] none [.elem "strong" [] none [.text label], .text " ", .expr value]]

/-- The four-row grid `DemographicsTab` returns for a present slice, from
the destructured fields. -/
def demographicsView (age gender weight height : JsVal) : Except JsError Jsx := do
  let a ← formatNumeric age "years"
  let w ← formatNumeric weight "kg"
  let h ← formatNumeric height "cm"
  pure (.elem "div" [] none
    [.elem "Row" [("className", "g-3")] none
      [fieldCol "Age:" (.str a),
       fieldCol "Gender:" (jsOr gender (.str "Not provided")),
       fieldCol "Weight:" (.str w),
       fieldCol "Height:" (.str h)]])

/-- Source: `DemographicsTab({ data })`. -/
def DemographicsTab (data : JsVal) : Except JsError Jsx :=
  if !truthy data then .ok (mutedP "No data available")
  else demographicsView (field data "age") (field data "gender") (field data "weight")
    (field data "height")

/-! ## LifestyleTab.jsx -/

/-- The column `<Col md={6}><p><strong>label</strong>{' '}{value}</p></Col>`. -/
def fieldColSp (label : String) (value : JsVal) : Jsx :=
  .elem "Col" [("md", "6")] none
    [.elem "p" [] none
      [.elem "strong" [] none [.text label], .expr (.str " "), .expr value]]

/-- The four-row grid `LifestyleTab` returns for a present slice, from the
destructured fields. -/
def lifestyleView (diet sleep_hours physical_activity mental_exercises : JsVal) :
    Except JsError Jsx := do
  let sleep ←
    if !isNullish sleep_hours then do
      let s ← toStr sleep_hours
      pure (JsVal.str (s ++ " hours/day"))
    else pure (JsVal.str "Not provided")
  pure (.elem "div" [] none
    [.elem "Row" [("className", "g-3")] none
      [fieldCol "Diet:" (orElse diet (.str "Not provided")),
       fieldColSp "Sleep Hours:" sleep,
       fieldColSp "Physical Activity:" (orElse physical_activity (.str "Not provided")),
       fieldColSp "Mental Exercises:" (orElse mental_exercises (.str "Not provided"))]])

/-- Source: `LifestyleTab({ data })`. -/
def LifestyleTab (data : JsVal) : Except JsError Jsx :=
  if !truthy data then .ok (mutedP "No data available")
  else lifestyleView (field data "diet") (field data "sleep_hours")
    (field data "physical_activity") (field data "mental_exercises")

/-! ## SymptomsTab.jsx -/

/-- Source: `normalizeSymptoms(symptoms)`. -/
def normalizeSymptoms (symptoms : JsVal) : String :=
  match symptoms with
  | .arr xs =>
    String.intercalate ", "
      ((xs.map fun s => match s with
          | .str t => jsTrim t
          | _ => "").filter fun t => t != "")
  | .str s => jsTrim s
  | _ => ""

/-- The body shared by the free-text tabs: a heading paragraph and the text in
`<p className="bg-light p-3 rounded">`. -/
def textPanel (heading : String) (body : JsVal) : Jsx :=
  .elem "div" [] none
    [.elem "p" [] none [.elem "strong" [] none [.text heading]],
     .elem "p" [("className", "bg-light p-3 rounded")] none [.expr body]]

/-- Source: `SymptomsTab({ data })`. -/
def SymptomsTab (data : JsVal) : Except JsError Jsx :=
  let symptomsText := normalizeSymptoms (optProp data "symptoms")
  if symptomsText = "" then .ok (mutedP "No data available")
  else .ok (textPanel "Symptoms:" (.str symptomsText))

/-! ## MentalHealthTab.jsx -/

/-- Source: `MentalHealthTab({ data })`. -/
def MentalHealthTab (data : JsVal) : Except JsError Jsx :=
  if !truthy (optProp data "mental_health") then .ok (mutedP "No data available")
  else do
    let notes ← getProp data "mental_health"
    pure (textPanel "Mental Health Notes:" notes)

/-! ## MedicalReportsTab.jsx -/

/-- Strict equality with the number zero, `v === 0`. -/
def isZero : JsVal → Bool
  | .num (.zero _) => true
  | _ => false

/-- The loop of `Array.prototype.map`: the callback receives each element with
its index, and the first exception it throws ends the loop. -/
def mapWithIndex {β : Type} (f : JsVal → Nat → Except JsError β) :
    List JsVal → Nat → Except JsError (List β)
  | [], _ => .ok []
  | x :: rest, i =>
    match f x i with
    | .error e => .error e
    | .ok y =>
      match mapWithIndex f rest (i + 1) with
      | .error e => .error e
      | .ok ys => .ok (y :: ys)

/-- The call `v.map(f)`.  Only an array has a callable `map`; on any other
value the call throws. -/
def callMap {β : Type} (v : JsVal) (f : JsVal → Nat → Except JsError β) :
    Except JsError (List β) :=
  match v with
  | .arr xs => mapWithIndex f xs 0
  | .undefined => .error (.typeError "Cannot read properties of undefined (reading map)")
  | .null => .error (.typeError "Cannot read properties of null (reading map)")
  | _ => .error (.typeError "map is not a function")

/-- The list item built for one file by the `files.map` callback. -/
def fileItem (file : JsVal) (idx : Nat) : Except JsError Jsx := do
  let id ← getProp file "id"
  let name ← getProp file "name"
  let key ← toStr (jsOr (jsOr id name) (.num (JsNum.ofNat idx)))
  let shown := jsOr name (.str ("File " ++ indexToString (idx + 1)))
  let type ← getProp file "type"
  pure (.elem "li"
    [("className", "list-group-item d-flex justify-content-between align-items-center")]
    (some (.str key))
    [.elem "span" [] none [.text "📄 ", .expr shown],
     .elem "span" [("className", "badge bg-secondary rounded-pill")] none [.expr type]])

/-- What `MedicalReportsTab` returns for a present slice, from the
destructured `files` and `skipped`. -/
def medicalReportsView (files skipped : JsVal) : Except JsError Jsx :=
  if truthy skipped then .ok (skipAlert "User skipped uploading medical reports") else
  if !truthy files || isZero (field files "length") then .ok (mutedP "No files uploaded")
  else do
    let items ← callMap files fileItem
    pure (.elem "div" [] none
      [.elem "p" [] none [.elem "strong" [] none [.text "Medical Reports:"]],
       .elem "ul" [("className", "list-group")] none [.list items]])

/-- Source: `MedicalReportsTab({ data })`. -/
def MedicalReportsTab (data : JsVal) : Except JsError Jsx :=
  if !truthy data then .ok (mutedP "No data available")
  else medicalReportsView (field data "files") (field data "skipped")

/-! ## WearableDataTab.jsx -/

/-- Lower-case hexadecimal digit. -/
def hexDigit (n : Nat) : Char :=
  if n < 10 then Char.ofNat (48 + n) else Char.ofNat (87 + n)

/-- Escape of one character inside a JSON string, as `JSON.stringify` quotes
it. -/
def escapeJsonChar (c : Char) : String :=
  let n := c.toNat
  if n == 34 then "\\\""
  else if n == 92 then "\\\\"
  else if n == 8 then "\\b"
  else if n == 12 then "\\f"
  else if n == 10 then "\\n"
  else if n == 13 then "\\r"
  else if n == 9 then "\\t"
  else if n < 32 then String.mk ['\\', 'u', '0', '0', hexDigit (n / 16), hexDigit (n % 16)]
  else String.singleton c

/-- A JSON string literal, as `JSON.stringify` writes a string. -/
def quoteJson (s : String) : String :=
  "\"" ++ String.join (s.toList.map escapeJsonChar) ++ "\""

mutual
/-- The serialisation `JSON.stringify(value, null, 2)` at the indentation
`indent`; `none` is the result `undefined`.  A property whose value is
`undefined` is left out of an object, an `undefined` array element is written
`null`, and so is a number that is not finite. -/
def jsonSerialize (indent : String) : JsVal → Option String
  | .undefined => none
  | .null => some "null"
  | .bool b => some (if b then "true" else "false")
  | .num n => some (if n.isFinite then numToString n else "null")
  | .str s => some (quoteJson s)
  | .arr xs =>
    match jsonItems (indent ++ "  ") xs with
    | [] => some "[]"
    | parts =>
      some ("[\n" ++ indent ++ "  " ++ String.intercalate (",\n" ++ indent ++ "  ") parts
        ++ "\n" ++ indent ++ "]")
  | .obj fs =>
    match jsonFields (indent ++ "  ") fs with
    | [] => some "\x7b\x7d"
    | parts =>
      some ("\x7b\n" ++ indent ++ "  " ++ String.intercalate (",\n" ++ indent ++ "  ") parts
        ++ "\n" ++ indent ++ "\x7d")
/-- The serialised elements of an array. -/
def jsonItems (indent : String) : List JsVal → List String
  | [] => []
  | x :: rest =>
    (match jsonSerialize indent x with
      | none => "null"
      | some s => s) :: jsonItems indent rest
/-- The serialised properties of an object. -/
def jsonFields (indent : String) : List (String × JsVal) → List String
  | [] => []
  | (k, v) :: rest =>
    match jsonSerialize indent v with
    | none => jsonFields indent rest
    | some s => (quoteJson k ++ ": " ++ s) :: jsonFields indent rest
end

/-- The call `JSON.stringify(value, null, 2)`. -/
def jsonStringify (value : JsVal) : JsVal :=
  match jsonSerialize "" value with
  | none => .undefined
  | some s => .str s

/-- Source: `stringifySafe(value)`.  `JSON.stringify` throws only on cyclic
structures and big integers, which a JSON-like value does not contain, so the
`catch` branch is never taken. -/
def stringifySafe (value : JsVal) : JsVal := jsonStringify value

/-- The value `Object.keys(v).length` for a non-null, non-array object. -/
def objectKeysLength : JsVal → Nat
  | .obj fs => fs.length
  | _ => 0

/-- The `isEmpty` test of `WearableDataTab`. -/
def wearableIsEmpty (wearableData : JsVal) : Bool :=
  isNullish wearableData ||
  (isArray wearableData && isZero (field wearableData "length")) ||
  (!isArray wearableData && typeofObject wearableData &&
    objectKeysLength wearableData == 0)

/-- The populated view of `WearableDataTab`: the heading and the dump inside
`<pre>`. -/
def wearablePanel (prettyWearable : JsVal) : Jsx :=
  .elem "div" [] none
    [.elem "p" [] none [.elem "strong" [] none [.text "Wearable Data:"]],
     .elem "div" [("className", "bg-light p-3 rounded")] none
       [.elem "pre" [("style", "fontSize: 0.85rem")] none [.expr prettyWearable]]]

/-- What `WearableDataTab` returns for a present slice, from the destructured
`data` (renamed `wearableData`) and `skipped`.  The memoising hook
`React.useMemo` is modelled by the value it returns, the result of
`stringifySafe`. -/
def wearableView (wearableData skipped : JsVal) : Except JsError Jsx :=
  if truthy skipped then .ok (skipAlert "User skipped uploading wearable data") else
  if wearableIsEmpty wearableData then .ok (mutedP "No wearable data available")
  else
    let prettyWearable := stringifySafe wearableData
    .ok (wearablePanel prettyWearable)

/-- Source: `WearableDataTab({ data })`. -/
def WearableDataTab (data : JsVal) : Except JsError Jsx :=
  if !truthy data then .ok (mutedP "No data available")
  else wearableView (field data "data") (field data "skipped")

/-! ## DiagnosisTab.jsx -/

/-- The comparison `v > 0`.  A string operand is converted by the engine's
string-to-number conversion, which is not part of the components: its outcome
`strGtZero s` (whether the number read from `s` is positive) is a parameter.
Arrays and objects are first converted to a string. -/
def gtZero (strGtZero : String → Bool) (v : JsVal) : Except JsError Bool :=
  match v with
  | .undefined => .ok false
  | .null => .ok false
  | .bool b => .ok b
  | .num n => .ok n.positive
  | .str s => .ok (strGtZero s)
  | w => do
    let s ← toStr w
    pure (strGtZero s)

/-- The expression `diag.id ?? diag.code ?? diag.name`, evaluated where
`diag` is not `null` or `undefined` (it is `undefined` on such a value in the
guard `diag && (...)`, which stops at `diag`). -/
def firstIdentifier (diag : JsVal) : JsVal :=
  orElse (orElse (optProp diag "id") (optProp diag "code")) (optProp diag "name")

/-- Source: `getDiagKey(diag, idx)`. -/
def getDiagKey (diag : JsVal) (idx : Nat) : Except JsError String :=
  match diag with
  | .str s => .ok ("s:" ++ s)
  | d =>
    if truthy d && truthy (firstIdentifier d) then do
      let val := firstIdentifier d
      let s ← toStr val
      pure ("o:" ++ s)
    else .ok ("idx:" ++ indexToString idx)

/-- Source: `getDiagLabel(diag)`. -/
def getDiagLabel (diag : JsVal) : JsVal :=
  match diag with
  | .str s => .str s
  | d => orElse (optProp d "name") (.str "")

/-- The child `{summary && (<div className="mb-3">...</div>)}`, shared by the
diagnosis and exams tabs. -/
def summaryBlock (summary : JsVal) : Jsx :=
  if truthy summary then
    .elem "div" [("className", "mb-3")] none
      [.elem "strong" [] none [.text "AI Summary:"],
       .elem "p" [("className", "bg-light p-3 rounded")] none [.expr summary]]
  else .expr summary

/-- The child `{items && items.length > 0 && (<>...</>)}`: the value that stops
the `&&` chain when it is falsy, otherwise the fragment built by `body`. -/
def guardedList (strGtZero : String → Bool) (items : JsVal)
    (body : Except JsError Jsx) : Except JsError Jsx :=
  if !truthy items then .ok (.expr items) else do
    let positive ← gtZero strGtZero (field items "length")
    if !positive then pure (.expr (.bool false)) else body

/-- The child `{!suggestions?.length && !selected?.length && !summary && (<p
className="text-muted">msg</p>)}`. -/
def emptyNotice (msg : String) (suggestions selected summary : JsVal) : Jsx :=
  if !truthy (optProp suggestions "length") && !truthy (optProp selected "length")
      && !truthy summary then mutedP msg
  else .expr (.bool false)

/-- The `<li>` built for one suggested diagnosis. -/
def diagSuggestionItem (diag : JsVal) (idx : Nat) : Except JsError Jsx := do
  let key ← getDiagKey diag idx
  pure (.elem "li" [("className", "list-group-item")] (some (.str key))
    [.expr (getDiagLabel diag)])

/-- The `<Badge>` built for one selected diagnosis. -/
def diagSelectedItem (diag : JsVal) (idx : Nat) : Except JsError Jsx := do
  let key ← getDiagKey diag idx
  pure (.elem "Badge" [("bg", "primary")] (some (.str key)) [.expr (getDiagLabel diag)])

/-- What `DiagnosisTab` returns for a present slice, from the destructured
`suggestions`, `summary` and `selected`. -/
def diagnosisView (strGtZero : String → Bool) (suggestions summary selected : JsVal) :
    Except JsError Jsx := do
    let c2 ← guardedList strGtZero suggestions (do
      let items ← callMap suggestions diagSuggestionItem
      pure (.elem "Fragment" [] none
        [.elem "p" [] none [.elem "strong" [] none [.text "Suggestions:"]],
         .elem "ul" [("className", "list-group mb-3")] none [.list items]]))
    let c3 ← guardedList strGtZero selected (do
      let items ← callMap selected diagSelectedItem
      pure (.elem "Fragment" [] none
        [.elem "p" [] none [.elem "strong" [] none [.text "Selected by Physician:"]],
         .elem "div" [("className", "d-flex flex-wrap gap-2")] none [.list items]]))
    pure (.elem "div" [] none
      [summaryBlock summary, c2, c3,
       emptyNotice "No diagnosis data available" suggestions selected summary])

/-- Source: `DiagnosisTab({ data })`. -/
def DiagnosisTab (strGtZero : String → Bool) (data : JsVal) : Except JsError Jsx :=
  if !truthy data then .ok (mutedP "No data available")
  else diagnosisView strGtZero (field data "suggestions") (field data "summary")
    (field data "selected")

/-! ## ExamsTab.jsx -/

/-- Source: `getExamKey(exam, idx)`. -/
def getExamKey (exam : JsVal) (idx : Nat) : Except JsError JsVal :=
  match exam with
  | .str s => .ok (.str s)
  | e =>
    if !isNullish (optProp e "id") then do
      let s ← toStr (optProp e "id")
      pure (.str s)
    else if truthy (optProp e "name") then .ok (optProp e "name")
    else .ok (.str ("exam-" ++ indexToString idx))

/-- Source: `getExamLabel(exam)`. -/
def getExamLabel (exam : JsVal) : JsVal :=
  match exam with
  | .str s => .str s
  | e => orElse (optProp e "name") (.str "Unknown exam")

/-- The `<li>` built for one suggested exam. -/
def examSuggestionItem (exam : JsVal) (idx : Nat) : Except JsError Jsx := do
  let key ← getExamKey exam idx
  let keyString ← toStr key
  pure (.elem "li" [("className", "list-group-item")] (some (.str keyString))
    [.expr (getExamLabel exam)])

/-- The `<Badge>` built for one selected exam. -/
def examSelectedItem (exam : JsVal) (idx : Nat) : Except JsError Jsx := do
  let key ← getExamKey exam idx
  let keyString ← toStr key
  pure (.elem "Badge" [("bg", "success")] (some (.str keyString))
    [.expr (getExamLabel exam)])

/-- What `ExamsTab` returns for a present slice, from the destructured
`suggestions`, `summary` and `selected`. -/
def examsView (strGtZero : String → Bool) (suggestions summary selected : JsVal) :
    Except JsError Jsx := do
    let c2 ← guardedList strGtZero suggestions (do
      let items ← callMap suggestions examSuggestionItem
      pure (.elem "Fragment" [] none
        [.elem "p" [] none [.elem "strong" [] none [.text "Suggested Exams:"]],
         .elem "ul" [("className", "list-group mb-3")] none [.list items]]))
    let c3 ← guardedList strGtZero selected (do
      let items ← callMap selected examSelectedItem
      pure (.elem "Fragment" [] none
        [.elem "p" [] none [.elem "strong" [] none [.text "Selected Exams:"]],
         .elem "div" [("className", "d-flex flex-wrap gap-2")] none [.list items]]))
    pure (.elem "div" [] none
      [summaryBlock summary, c2, c3,
       emptyNotice "No exam data available" suggestions selected summary])

/-- Source: `ExamsTab({ data })`. -/
def ExamsTab (strGtZero : String → Bool) (data : JsVal) : Except JsError Jsx :=
  if !truthy data then .ok (mutedP "No data available")
  else examsView strGtZero (field data "suggestions") (field data "summary")
    (field data "selected")

/-! ## PatientView.jsx -/

/-- The three state cells of `PatientView`: `patient`, `isLoading`, `error`. -/
structure ViewState where
  patient : JsVal
  isLoading : Bool
  error : JsVal

/-- The initial state: `useState(null)`, `useState(true)`, `useState(null)`. -/
def ViewState.initial : ViewState :=
  { patient := .null, isLoading := true, error := .null }

/-- How the awaited call `consultationAPI.getConsultationStatus(id)` ends: the
promise resolves with a document or rejects with a thrown value. -/
inductive FetchOutcome where
  | resolved (data : JsVal)
  | rejected (err : JsVal)

/-- The value `new Error(message)`, an object whose `message` is the text. -/
def newError (message : String) : JsVal := .obj [("message", .str message)]

/-- The part of `loadPatient` before the `await`: `setIsLoading(true)` and
`setError(null)`. -/
def beginLoad (st : ViewState) : ViewState :=
  { st with isLoading := true, error := .null }

/-- The `catch (err)` and `finally` blocks of `loadPatient`.  When reading
`err.message` itself throws, `setError` is not reached, and `finally` still
runs. -/
def catchFinally (st : ViewState) (err : JsVal) : ViewState :=
  match getProp err "message" with
  | .ok message =>
    { st with error := jsOr message (.str "Failed to load patient record"),
              isLoading := false }
  | .error _ => { st with isLoading := false }

/-- The part of `loadPatient` after the `await`. -/
def finishLoad (st : ViewState) (outcome : FetchOutcome) : ViewState :=
  match outcome with
  | .resolved data =>
    if !truthy data then catchFinally st (newError "Patient record not found")
    else { st with patient := data, isLoading := false }
  | .rejected err => catchFinally st err

/-- Source: `loadPatient` run to completion on a given outcome of the fetch. -/
def loadPatient (st : ViewState) (outcome : FetchOutcome) : ViewState :=
  finishLoad (beginLoad st) outcome

/-- Functions of the JavaScript engine that the components call and do not
define: whether the number read from a string is positive (for `length > 0`
on a string operand), `String.prototype.toUpperCase`, and the date formatting
`new Date(value).toLocaleDateString('en-US', ...)`, which is `none` when it
throws. -/
structure Engine where
  strGtZero : String → Bool
  toUpperCase : String → String
  toLocaleDateString : JsVal → Option String

/-- Source: `formatDate(dateString)` in `PatientView.jsx`. -/
def formatDate (engine : Engine) (dateString : JsVal) : JsVal :=
  if !truthy dateString then .str "N/A"
  else
    match engine.toLocaleDateString dateString with
    | some formatted => .str formatted
    | none => dateString

/-- The expression `patient.lang?.toUpperCase()`: `undefined` for an absent
`lang`, the upper-cased text for a string, and an exception for any other
value, which has no callable `toUpperCase`. -/
def upperCaseLang (engine : Engine) (lang : JsVal) : Except JsError JsVal :=
  match lang with
  | .undefined => .ok .undefined
  | .null => .ok .undefined
  | .str s => .ok (.str (engine.toUpperCase s))
  | _ => .error (.typeError "patient.lang?.toUpperCase is not a function")

/-- One tab pane as React renders it: the tab component runs, and the tree it
returns is rendered.  No error boundary surrounds the tabs, so an exception
of the tab, or a child of its tree that is a plain object, takes the whole
view down. -/
def renderPane (tab : Except JsError Jsx) : Except JsError Jsx :=
  match tab with
  | .error e => .error e
  | .ok view => if renderable view then .ok view else .error objectChildError

/-- The eight tab panes of the loaded view under their event keys, each tab
fed its slice of the form data: `<DemographicsTab data={formData?.demographics}
/>` and so on. -/
def renderPanes (strGtZero : String → Bool) (formData : JsVal) :
    Except JsError (List (String × Jsx)) := do
  let demographics ← renderPane (DemographicsTab (optProp formData "demographics"))
  let lifestyle ← renderPane (LifestyleTab (optProp formData "lifestyle"))
  let symptoms ← renderPane (SymptomsTab (optProp formData "symptoms"))
  let mental ← renderPane (MentalHealthTab (optProp formData "mental"))
  let medical ← renderPane (MedicalReportsTab (optProp formData "medicalReports"))
  let wearable ← renderPane (WearableDataTab (optProp formData "wearableData"))
  let diagnosis ← renderPane (DiagnosisTab strGtZero (optProp formData "diagnosis"))
  let exams ← renderPane (ExamsTab strGtZero (optProp formData "exams"))
  pure [("demographics", demographics), ("lifestyle", lifestyle), ("symptoms", symptoms),
    ("mental", mental), ("medical", medical), ("wearable", wearable),
    ("diagnosis", diagnosis), ("exams", exams)]

/-- What the patient record view shows: the identifier `{patient.patient_id}`,
the language `{patient.lang?.toUpperCase() || 'N/A'}`, the creation date
`{formatDate(patient.created_at)}`, whether the status badge reads Complete
(`patient.is_complete`), the eight tab panes, and the raw dump
`{JSON.stringify(patient, null, 2)}`. -/
structure LoadedView where
  patientId : JsVal
  language : JsVal
  created : JsVal
  complete : Bool
  panes : List (String × Jsx)
  rawJson : JsVal

/-- The four views `PatientView` returns: the spinner ("Loading patient
record..."), the danger alert "Error Loading Patient" showing `error`, the
warning alert "Patient Not Found", and the patient record. -/
inductive Screen where
  | loading
  | error (message : JsVal)
  | notFound
  | loaded (view : LoadedView)

/-- Source: the render body of `PatientView`, as React renders it.  The view
is chosen from the state.  The patient record is built by evaluating the
expressions of its JSX, then rendering its children in order: the identifier,
the language (always a string), the date and the tab panes.  An exception
thrown on the way is the result. -/
def PatientView (engine : Engine) (st : ViewState) : Except JsError Screen :=
  if st.isLoading then .ok .loading
  else if truthy st.error then
    if validChild st.error then .ok (.error st.error) else .error objectChildError
  else if !truthy st.patient then .ok .notFound
  else do
    let formData := orElse (optProp st.patient "formData") (.obj [])
    let upper ← upperCaseLang engine (field st.patient "lang")
    let created := formatDate engine (field st.patient "created_at")
    if !validChild (field st.patient "patient_id") then .error objectChildError
    else if !validChild created then .error objectChildError
    else do
      let panes ← renderPanes engine.strGtZero formData
      pure (.loaded
        { patientId := field st.patient "patient_id",
          language := jsOr upper (.str "N/A"),
          created := created,
          complete := truthy (field st.patient "is_complete"),
          panes := panes,
          rawJson := jsonStringify st.patient })

/-! ## Vocabulary of the statements -/

/-- Whether an element is a muted paragraph holding a single text, the shape
of every no-data message. -/
def isMutedP : Jsx → Bool
  | .elem tag props none [.text _] => tag == "p" && props == [("className", "text-muted")]
  | _ => false

/-- Whether a view is a no-data view: the no-data message alone, or a `div`
whose only child that produces output is the no-data message. -/
def isNoDataView : Jsx → Bool
  | .elem tag props key cs =>
    isMutedP (.elem tag props key cs) ||
      (tag == "div" &&
        match visibleChildren cs with
        | [c] => isMutedP c
        | _ => false)
  | _ => false

/-- An absent or empty free-text field: `undefined`, `null` or `""`. -/
def blankText : JsVal → Bool
  | .undefined => true
  | .null => true
  | .str s => s == ""
  | _ => false

/-- An absent or empty sequence field: `undefined`, `null` or `[]`. -/
def blankList : JsVal → Bool
  | .undefined => true
  | .null => true
  | .arr xs => xs.isEmpty
  | _ => false

/-- An absent or empty nested value: `undefined`, `null`, `[]` or the empty
mapping. -/
def blankDump : JsVal → Bool
  | .undefined => true
  | .null => true
  | .arr xs => xs.isEmpty
  | .obj fs => fs.isEmpty
  | _ => false

/-- The grid of four rows that all read "Not provided", as `DemographicsTab`
lays it out. -/
def demographicsNotProvided : Jsx :=
  .elem "div" [] none
    [.elem "Row" [("className", "g-3")] none
      [fieldCol "Age:" (.str "Not provided"),
       fieldCol "Gender:" (.str "Not provided"),
       fieldCol "Weight:" (.str "Not provided"),
       fieldCol "Height:" (.str "Not provided")]]

/-- The grid of four rows that all read "Not provided", as `LifestyleTab` lays
it out. -/
def lifestyleNotProvided : Jsx :=
  .elem "div" [] none
    [.elem "Row" [("className", "g-3")] none
      [fieldCol "Diet:" (.str "Not provided"),
       fieldColSp "Sleep Hours:" (.str "Not provided"),
       fieldColSp "Physical Activity:" (.str "Not provided"),
       fieldColSp "Mental Exercises:" (.str "Not provided")]]

/-- Symptom normalisation as the specification words it: of a sequence, the
entries that are strings, each trimmed, those empty after trimming removed,
joined with a comma and a space in their original order. -/
def normalizeSymptomsSpec (entries : List JsVal) : String :=
  String.intercalate ", "
    (entries.filterMap fun e =>
      match e with
      | .str t => if jsTrim t = "" then none else some (jsTrim t)
      | _ => none)

/-- The first of an item's `id`, `code` and `name`, in that order, that is
neither `null` nor `undefined`; `undefined` when there is none. -/
def firstNonNull (item : JsVal) : JsVal :=
  match [optProp item "id", optProp item "code", optProp item "name"].find?
      (fun v => !isNullish v) with
  | some v => v
  | none => .undefined

/-- An engine for evaluating concrete inputs: no string reads as a positive
number, upper-casing is that of the ASCII letters, and date formatting
prints nothing but the fixed text "January 5, 2026". -/
def plainEngine : Engine :=
  { strGtZero := fun _ => false,
    toUpperCase := fun s => String.mk (s.toList.map Char.toUpper),
    toLocaleDateString := fun _ => some "January 5, 2026" }

/-- Value of a decimal digit character. -/
def digitVal (c : Char) : Nat := c.toNat - 48

/-- The number a list of decimal digit characters denotes. -/
def ofDigits (cs : List Char) : Nat := cs.foldl (fun a c => 10 * a + digitVal c) 0

/-! ## Decimal numerals -/

theorem toDigitsCore_acc (f : Nat) : ∀ (n : Nat) (acc : List Char),
    Nat.toDigitsCore 10 f n acc = Nat.toDigitsCore 10 f n [] ++ acc := by
  induction f with
  | zero => intro n acc; simp [Nat.toDigitsCore]
  | succ f ih =>
    intro n acc
    simp only [Nat.toDigitsCore]
    split
    · simp
    · rw [ih (n / 10) (Nat.digitChar (n % 10) :: acc), ih (n / 10) [Nat.digitChar (n % 10)]]
      simp

theorem toDigitsCore_step (f n : Nat) (h : n < f) :
    Nat.toDigitsCore 10 f n [] =
      if n < 10 then [Nat.digitChar n]
      else Nat.toDigitsCore 10 (n / 10 + 1) (n / 10) [] ++ [Nat.digitChar (n % 10)] := by
  induction f using Nat.strong_induction_on generalizing n with
  | _ f ih =>
    cases f with
    | zero => omega
    | succ f =>
      simp only [Nat.toDigitsCore]
      by_cases h0 : n / 10 = 0
      · have : n < 10 := by omega
        simp [h0, this, Nat.mod_eq_of_lt this]
      · have hn : ¬ n < 10 := by omega
        simp only [h0, hn, if_false]
        rw [toDigitsCore_acc]
        congr 1
        have h1 : n / 10 < f := by omega
        have h2 : n / 10 < n / 10 + 1 := by omega
        exact (ih f (by omega) (n / 10) h1).trans (ih (n / 10 + 1) (by omega) (n / 10) h2).symm

theorem toDigits_step (n : Nat) :
    Nat.toDigits 10 n =
      if n < 10 then [Nat.digitChar n]
      else Nat.toDigits 10 (n / 10) ++ [Nat.digitChar (n % 10)] := by
  unfold Nat.toDigits
  exact toDigitsCore_step (n + 1) n (by omega)

theorem digitVal_digitChar (d : Nat) (h : d < 10) : digitVal (Nat.digitChar d) = d := by
  interval_cases d <;> rfl

theorem ofDigits_toDigits (n : Nat) : ofDigits (Nat.toDigits 10 n) = n := by
  induction n using Nat.strong_induction_on with
  | _ n ih =>
    rw [toDigits_step]
    split
    · next h => simp [ofDigits, digitVal_digitChar n h]
    · next h =>
      have := ih (n / 10) (by omega)
      simp only [ofDigits] at this ⊢
      rw [List.foldl_append, this]
      simp [digitVal_digitChar (n % 10) (by omega)]
      omega

/-- Distinct naturals have distinct decimal numerals. -/
theorem repr_injective (a b : Nat) (h : Nat.repr a = Nat.repr b) : a = b := by
  have h' : Nat.toDigits 10 a = Nat.toDigits 10 b := congrArg String.data h
  have := congrArg ofDigits h'
  simpa [ofDigits_toDigits] using this

/-- A decimal numeral starts with a digit. -/
theorem toDigits_head (n : Nat) :
    ∃ c cs, Nat.toDigits 10 n = c :: cs ∧ c.isDigit = true := by
  induction n using Nat.strong_induction_on with
  | _ n ih =>
    rw [toDigits_step]
    split
    · next h => exact ⟨_, [], rfl, by interval_cases n <;> rfl⟩
    · next h =>
      obtain ⟨c, cs, hc, hd⟩ := ih (n / 10) (by omega)
      exact ⟨c, cs ++ [Nat.digitChar (n % 10)], by simp [hc], hd⟩

theorem toDigits_mul_ten (m : Nat) (h : 0 < m) :
    Nat.toDigits 10 (m * 10) = Nat.toDigits 10 m ++ ['0'] := by
  rw [toDigits_step (m * 10)]
  have h1 : ¬ m * 10 < 10 := by omega
  have h2 : m * 10 / 10 = m := by omega
  have h3 : m * 10 % 10 = 0 := by omega
  rw [if_neg h1, h2, h3]
  rfl

theorem toDigits_mul_pow (s z : Nat) (h : 0 < s) :
    Nat.toDigits 10 (s * 10 ^ z) = Nat.toDigits 10 s ++ List.replicate z '0' := by
  induction z with
  | zero => simp
  | succ z ih =>
    have hpos : 0 < s * 10 ^ z := by positivity
    rw [pow_succ, ← Nat.mul_assoc, toDigits_mul_ten _ hpos, ih, List.replicate_succ',
      List.append_assoc]

/-- Stripping the trailing zeros of a positive numeral leaves a numeral that
does not end in zero, of which the original is a multiple by a power of ten. -/
theorem stripZeros_spec (fuel : Nat) : ∀ n, 0 < n → n ≤ fuel →
    ∃ z, n = stripZeros fuel n * 10 ^ z ∧ stripZeros fuel n % 10 ≠ 0 := by
  induction fuel with
  | zero => intro n hn hf; omega
  | succ fuel ih =>
    intro n hn hf
    unfold stripZeros
    by_cases hz : n % 10 = 0 ∧ n ≠ 0
    · rw [if_pos hz]
      obtain ⟨z, hz1, hz2⟩ := ih (n / 10) (by omega) (by omega)
      refine ⟨z + 1, ?_, hz2⟩
      rw [pow_succ, ← Nat.mul_assoc, ← hz1]
      omega
    · rw [if_neg hz]
      exact ⟨0, by simp, by omega⟩

theorem toDigits_length_le (n : Nat) (h : n < 10 ^ 21) : (Nat.toDigits 10 n).length ≤ 21 :=
  Nat.repr_length n 21 (by decide) h

/-- Below `10 ^ 21` the string form of a natural number is its decimal
numeral. -/
theorem numToString_ofNat (n : Nat) (h : n < 10 ^ 21) :
    numToString (JsNum.ofNat n) = Nat.repr n := by
  cases n with
  | zero => rfl
  | succ m =>
    obtain ⟨z, hz1, hz2⟩ := stripZeros_spec (m + 1) (m + 1) (by omega) (le_refl _)
    have hlen := toDigits_length_le (m + 1) h
    generalize hs : stripZeros (m + 1) (m + 1) = s at hz1 hz2
    have hspos : 0 < s := by
      rcases Nat.eq_zero_or_pos s with h0 | h0
      · simp [h0] at hz2
      · exact h0
    have hd : JsNum.digits (s / 10) ⟨s % 10 - 1, by omega⟩ = s := by
      simp only [JsNum.digits]
      omega
    have hdig : Nat.toDigits 10 (m + 1) = Nat.toDigits 10 s ++ List.replicate z '0' := by
      rw [hz1]
      exact toDigits_mul_pow s z hspos
    show String.mk _ = String.mk (Nat.toDigits 10 (m + 1))
    congr 1
    simp only [hs, hd, List.nil_append, Bool.false_eq_true, if_false]
    unfold formatDigits
    rw [hdig] at hlen ⊢
    simp only [List.length_append, List.length_replicate] at hlen ⊢
    have hc : ((Nat.toDigits 10 s).length : Int) ≤ ((Nat.toDigits 10 s).length + z : Nat) ∧
        (((Nat.toDigits 10 s).length + z : Nat) : Int) ≤ 21 := by
      constructor <;> omega
    rw [if_pos hc]
    congr 2
    omega

/-- Array indices have distinct string forms. -/
theorem indexToString_injective (a b : Nat) (ha : a < 10 ^ 21) (hb : b < 10 ^ 21)
    (h : indexToString a = indexToString b) : a = b := by
  unfold indexToString at h
  rw [numToString_ofNat a ha, numToString_ofNat b hb] at h
  exact repr_injective a b h

theorem formatDigits_head (c : Char) (cs : List Char) (n : Int) :
    ∃ rest, formatDigits (c :: cs) n = c :: rest ∨ formatDigits (c :: cs) n = '0' :: rest := by
  unfold formatDigits
  split
  · exact ⟨_, Or.inl (List.cons_append _ _ _)⟩
  · split
    · next h =>
      obtain ⟨m, hm⟩ : ∃ m, n.toNat = m + 1 := ⟨n.toNat - 1, by omega⟩
      rw [hm]
      exact ⟨List.take m cs ++ '.' :: List.drop m cs, Or.inl (by simp)⟩
    · split
      · exact ⟨_, Or.inr rfl⟩
      · cases cs with
        | nil => exact ⟨_, Or.inl rfl⟩
        | cons d rest => exact ⟨_, Or.inl rfl⟩

/-- The string form of a number starts with a digit, a minus sign, `I`, or is
`NaN`. -/
theorem numToString_head (x : JsNum) :
    x = .nan ∨ ∃ c cs, (numToString x).data = c :: cs ∧ c ≠ 'N' := by
  cases x with
  | nan => exact Or.inl rfl
  | infinity negative => cases negative <;> exact Or.inr ⟨_, _, rfl, by decide⟩
  | zero negative => exact Or.inr ⟨_, _, rfl, by decide⟩
  | finite negative lead last point =>
    right
    cases negative with
    | true => exact ⟨'-', _, rfl, by decide⟩
    | false =>
      obtain ⟨c, cs, hc, hd⟩ := toDigits_head (JsNum.digits lead last)
      obtain ⟨rest, hr | hr⟩ := formatDigits_head c cs point
      · refine ⟨c, rest, ?_, ?_⟩
        · show [] ++ formatDigits (Nat.toDigits 10 (JsNum.digits lead last)) point = _
          rw [hc, hr]; rfl
        · intro hN
          rw [hN] at hd
          exact absurd hd (by decide)
      · refine ⟨'0', rest, ?_, by decide⟩
        show [] ++ formatDigits (Nat.toDigits 10 (JsNum.digits lead last)) point = _
        rw [hc, hr]; rfl

/-! ## Absent and empty slices (C1) -/

theorem DemographicsTab_present (data : JsVal) (h : truthy data = true) :
    DemographicsTab data = demographicsView (field data "age") (field data "gender")
      (field data "weight") (field data "height") := by
  simp [DemographicsTab, h]

theorem LifestyleTab_present (data : JsVal) (h : truthy data = true) :
    LifestyleTab data = lifestyleView (field data "diet") (field data "sleep_hours")
      (field data "physical_activity") (field data "mental_exercises") := by
  simp [LifestyleTab, h]

theorem MedicalReportsTab_present (data : JsVal) (h : truthy data = true) :
    MedicalReportsTab data = medicalReportsView (field data "files") (field data "skipped") := by
  simp [MedicalReportsTab, h]

theorem WearableDataTab_present (data : JsVal) (h : truthy data = true) :
    WearableDataTab data = wearableView (field data "data") (field data "skipped") := by
  simp [WearableDataTab, h]

theorem DiagnosisTab_present (sp : String → Bool) (data : JsVal) (h : truthy data = true) :
    DiagnosisTab sp data = diagnosisView sp (field data "suggestions") (field data "summary")
      (field data "selected") := by
  simp [DiagnosisTab, h]

theorem ExamsTab_present (sp : String → Bool) (data : JsVal) (h : truthy data = true) :
    ExamsTab sp data = examsView sp (field data "suggestions") (field data "summary")
      (field data "selected") := by
  simp [ExamsTab, h]

theorem diagnosisView_blank (sp : String → Bool) (suggestions summary selected : JsVal)
    (h1 : blankText summary = true) (h2 : blankList suggestions = true)
    (h3 : blankList selected = true) :
    ∃ cs, diagnosisView sp suggestions summary selected = .ok (.elem "div" [] none cs) ∧
      visibleChildren cs = [mutedP "No diagnosis data available"] := by
  cases summary <;> simp [blankText] at h1 <;>
  cases suggestions <;> simp [blankList] at h2 <;>
  cases selected <;> simp [blankList] at h3 <;>
  subst_vars <;> exact ⟨_, rfl, rfl⟩

theorem examsView_blank (sp : String → Bool) (suggestions summary selected : JsVal)
    (h1 : blankText summary = true) (h2 : blankList suggestions = true)
    (h3 : blankList selected = true) :
    ∃ cs, examsView sp suggestions summary selected = .ok (.elem "div" [] none cs) ∧
      visibleChildren cs = [mutedP "No exam data available"] := by
  cases summary <;> simp [blankText] at h1 <;>
  cases suggestions <;> simp [blankList] at h2 <;>
  cases selected <;> simp [blankList] at h3 <;>
  subst_vars <;> exact ⟨_, rfl, rfl⟩

theorem normalizeSymptoms_blank (v : JsVal) (h : (blankText v || blankList v) = true) :
    normalizeSymptoms v = "" := by
  cases v <;> simp [blankText, blankList] at h <;> subst_vars <;> rfl

theorem medicalReportsView_blank (files skipped : JsVal) (hs : truthy skipped = false)
    (hf : blankList files = true) :
    medicalReportsView files skipped = .ok (mutedP "No files uploaded") := by
  unfold medicalReportsView
  rw [hs]
  cases files <;> simp [blankList] at hf <;> subst_vars <;> rfl

theorem wearableView_blank (wearableData skipped : JsVal) (hs : truthy skipped = false)
    (hd : blankDump wearableData = true) :
    wearableView wearableData skipped = .ok (mutedP "No wearable data available") := by
  unfold wearableView
  rw [hs]
  cases wearableData <;> simp [blankDump] at hd <;> subst_vars <;> rfl

theorem demographicsView_blank (age gender weight height : JsVal)
    (ha : isNullish age = true) (hg : blankText gender = true)
    (hw : isNullish weight = true) (hh : isNullish height = true) :
    demographicsView age gender weight height = .ok demographicsNotProvided := by
  cases age <;> simp [isNullish] at ha <;>
  cases weight <;> simp [isNullish] at hw <;>
  cases height <;> simp [isNullish] at hh <;>
  cases gender <;> simp [blankText] at hg <;>
  subst_vars <;> rfl

theorem lifestyleView_blank (diet sleep_hours physical_activity mental_exercises : JsVal)
    (h1 : isNullish diet = true) (h2 : isNullish sleep_hours = true)
    (h3 : isNullish physical_activity = true) (h4 : isNullish mental_exercises = true) :
    lifestyleView diet sleep_hours physical_activity mental_exercises =
      .ok lifestyleNotProvided := by
  cases diet <;> simp [isNullish] at h1 <;>
  cases sleep_hours <;> simp [isNullish] at h2 <;>
  cases physical_activity <;> simp [isNullish] at h3 <;>
  cases mental_exercises <;> simp [isNullish] at h4 <;> rfl

/-- C1 (counterexample): on the empty mapping, a present slice whose every
recognized field is absent, `DemographicsTab` and `LifestyleTab` do not return
the no-data view: each returns its grid of four field rows reading
"Not provided". -/
theorem emptySlice_fieldRows :
    DemographicsTab (.obj []) = .ok demographicsNotProvided ∧
    isNoDataView demographicsNotProvided = false ∧
    LifestyleTab (.obj []) = .ok lifestyleNotProvided ∧
    isNoDataView lifestyleNotProvided = false :=
  ⟨rfl, rfl, rfl, rfl⟩

/-- C1 (amended): an absent slice (`null` or `undefined`) yields the no-data
message in all eight tabs.  A present slice whose recognized fields are absent
or empty yields a no-data view in the symptoms, mental-health, medical-reports,
wearable-data, diagnosis and exams tabs, while the demographics and lifestyle
tabs yield their grid of four field rows, each reading "Not provided". -/
theorem blankSlice_views (sp : String → Bool) (data : JsVal) :
    (isNullish data = true →
      DemographicsTab data = .ok (mutedP "No data available") ∧
      LifestyleTab data = .ok (mutedP "No data available") ∧
      SymptomsTab data = .ok (mutedP "No data available") ∧
      MentalHealthTab data = .ok (mutedP "No data available") ∧
      MedicalReportsTab data = .ok (mutedP "No data available") ∧
      WearableDataTab data = .ok (mutedP "No data available") ∧
      DiagnosisTab sp data = .ok (mutedP "No data available") ∧
      ExamsTab sp data = .ok (mutedP "No data available")) ∧
    (truthy data = true →
      ((blankText (field data "symptoms") || blankList (field data "symptoms")) = true →
        SymptomsTab data = .ok (mutedP "No data available")) ∧
      (blankText (field data "mental_health") = true →
        MentalHealthTab data = .ok (mutedP "No data available")) ∧
      (truthy (field data "skipped") = false → blankList (field data "files") = true →
        MedicalReportsTab data = .ok (mutedP "No files uploaded")) ∧
      (truthy (field data "skipped") = false → blankDump (field data "data") = true →
        WearableDataTab data = .ok (mutedP "No wearable data available")) ∧
      (blankText (field data "summary") = true →
        blankList (field data "suggestions") = true →
        blankList (field data "selected") = true →
        (∃ cs, DiagnosisTab sp data = .ok (.elem "div" [] none cs) ∧
          visibleChildren cs = [mutedP "No diagnosis data available"]) ∧
        (∃ cs, ExamsTab sp data = .ok (.elem "div" [] none cs) ∧
          visibleChildren cs = [mutedP "No exam data available"])) ∧
      (isNullish (field data "age") = true → blankText (field data "gender") = true →
        isNullish (field data "weight") = true → isNullish (field data "height") = true →
        DemographicsTab data = .ok demographicsNotProvided) ∧
      (isNullish (field data "diet") = true → isNullish (field data "sleep_hours") = true →
        isNullish (field data "physical_activity") = true →
        isNullish (field data "mental_exercises") = true →
        LifestyleTab data = .ok lifestyleNotProvided)) := by
  refine ⟨?_, ?_⟩
  · intro h
    cases data <;> simp [isNullish] at h <;> exact ⟨rfl, rfl, rfl, rfl, rfl, rfl, rfl, rfl⟩
  · intro hp
    refine ⟨?_, ?_, ?_, ?_, ?_, ?_, ?_⟩
    · intro hb
      have := normalizeSymptoms_blank _ hb
      simp only [field] at this
      simp [SymptomsTab, this]
    · intro hb
      have ht : truthy (optProp data "mental_health") = false := by
        revert hb
        simp only [field]
        generalize optProp data "mental_health" = v
        intro hb
        cases v <;> simp [blankText] at hb <;> subst_vars <;> rfl
      simp [MentalHealthTab, ht]
    · intro hs hf
      rw [MedicalReportsTab_present data hp]
      exact medicalReportsView_blank _ _ hs hf
    · intro hs hd
      rw [WearableDataTab_present data hp]
      exact wearableView_blank _ _ hs hd
    · intro h1 h2 h3
      rw [DiagnosisTab_present sp data hp, ExamsTab_present sp data hp]
      exact ⟨diagnosisView_blank sp _ _ _ h1 h2 h3, examsView_blank sp _ _ _ h1 h2 h3⟩
    · intro ha hg hw hh
      rw [DemographicsTab_present data hp]
      exact demographicsView_blank _ _ _ _ ha hg hw hh
    · intro h1 h2 h3 h4
      rw [LifestyleTab_present data hp]
      exact lifestyleView_blank _ _ _ _ h1 h2 h3 h4

/-- C1 (witness): the amended statement at the empty mapping. -/
theorem blankSlice_views_witness :
    SymptomsTab (.obj []) = .ok (mutedP "No data available") ∧
    MentalHealthTab (.obj []) = .ok (mutedP "No data available") ∧
    MedicalReportsTab (.obj []) = .ok (mutedP "No files uploaded") ∧
    WearableDataTab (.obj []) = .ok (mutedP "No wearable data available") ∧
    DemographicsTab (.obj []) = .ok demographicsNotProvided ∧
    DemographicsTab .null = .ok (mutedP "No data available") :=
  have h := blankSlice_views (fun _ => false) (.obj [])
  ⟨(h.2 rfl).1 rfl, (h.2 rfl).2.1 rfl, (h.2 rfl).2.2.1 rfl rfl, (h.2 rfl).2.2.2.1 rfl rfl,
   (h.2 rfl).2.2.2.2.2.1 rfl rfl rfl rfl,
   ((blankSlice_views (fun _ => false) .null).1 rfl).1⟩

/-! ## The skipped flag (C2) -/

/-- C2: for a present medical-reports or wearable-data slice whose `skipped`
flag is true (any truthy value), the projection is exactly the skip notice, an
info alert reading "Skipped:" and the sentence naming what was skipped,
whatever `files` or `data` hold. -/
theorem skipped_takes_precedence (data : JsVal) (hp : truthy data = true)
    (hs : truthy (field data "skipped") = true) :
    MedicalReportsTab data =
      .ok (.elem "Alert" [("variant", "info")] none
        [.elem "strong" [] none [.text "Skipped:"],
         .text " User skipped uploading medical reports"]) ∧
    WearableDataTab data =
      .ok (.elem "Alert" [("variant", "info")] none
        [.elem "strong" [] none [.text "Skipped:"],
         .text " User skipped uploading wearable data"]) := by
  rw [MedicalReportsTab_present data hp, WearableDataTab_present data hp]
  simp only [medicalReportsView, wearableView, hs, if_true]
  exact ⟨rfl, rfl⟩

/-- C2 (witness): a slice with `skipped: true`, one uploaded file and populated
wearable data yields only the skip notices. -/
theorem skipped_takes_precedence_witness :
    MedicalReportsTab (.obj [("skipped", .bool true),
        ("files", .arr [.obj [("name", .str "scan.pdf"), ("type", .str "pdf")]]),
        ("data", .obj [("heartRate", .num 72)])]) =
      .ok (.elem "Alert" [("variant", "info")] none
        [.elem "strong" [] none [.text "Skipped:"],
         .text " User skipped uploading medical reports"]) ∧
    WearableDataTab (.obj [("skipped", .bool true),
        ("files", .arr [.obj [("name", .str "scan.pdf"), ("type", .str "pdf")]]),
        ("data", .obj [("heartRate", .num 72)])]) =
      .ok (.elem "Alert" [("variant", "info")] none
        [.elem "strong" [] none [.text "Skipped:"],
         .text " User skipped uploading wearable data"]) :=
  skipped_takes_precedence _ rfl rfl

/-! ## Numeric formatting (C3) -/

theorem numeral_ne_notProvided (x : JsNum) (u : String) :
    numToString x ++ " " ++ u ≠ "Not provided" := by
  intro h
  have h2 := congrArg String.data h
  simp only [String.data_append] at h2
  rcases numToString_head x with hx | ⟨c, cs, hc, hN⟩
  · subst hx
    have h3 : ('N' :: 'a' :: 'N' :: ' ' :: u.data) = "Not provided".data := h2
    exact absurd (List.cons.inj (List.cons.inj h3).2).1 (by decide)
  · rw [hc] at h2
    exact hN (List.cons.inj h2).1

/-- C3: `formatNumeric` returns "Not provided" for `null` and for `undefined`;
for every number, zero included, it returns the string form of the number, a
space and the unit, which differs from the result for an absent value; the
result for `0` is "0", a space and the unit, so it contains the digit zero.
The string form is the one JavaScript prints: "72", "72.5", "-1.5", "1e+21",
"5e-7", "1.2345e-9", "NaN", "-Infinity".  `DemographicsTab` on the slice `{age: 0, gender: "female"}` shows Age
as "0 years" and Gender as "female", and the two missing fields as
"Not provided". -/
theorem formatNumeric_zero_vs_absent (u : String) (x : JsNum) :
    formatNumeric .null u = .ok "Not provided" ∧
    formatNumeric .undefined u = .ok "Not provided" ∧
    formatNumeric (.num x) u = .ok (numToString x ++ " " ++ u) ∧
    formatNumeric (.num x) u ≠ formatNumeric .null u ∧
    formatNumeric (.num x) u ≠ formatNumeric .undefined u ∧
    formatNumeric (.num 0) u = .ok ("0" ++ " " ++ u) ∧
    formatNumeric (.num (.zero true)) u = .ok ("0" ++ " " ++ u) ∧
    (∃ s, formatNumeric (.num 0) u = .ok s ∧ '0' ∈ s.data) ∧
    formatNumeric (.num 72) "kg" = .ok "72 kg" ∧
    formatNumeric (.num (JsNum.decimal false 725 2)) "kg" = .ok "72.5 kg" ∧
    formatNumeric (.num (JsNum.decimal true 15 1)) "kg" = .ok "-1.5 kg" ∧
    formatNumeric (.num (JsNum.decimal false 1 22)) "kg" = .ok "1e+21 kg" ∧
    formatNumeric (.num (JsNum.decimal false 5 (-6))) "cm" = .ok "5e-7 cm" ∧
    formatNumeric (.num 180) "cm" = .ok "180 cm" ∧
    formatNumeric (.num (JsNum.decimal false 12345 (-8))) "kg" = .ok "1.2345e-9 kg" ∧
    formatNumeric (.num (JsNum.decimal false 123 21)) "kg" = .ok "123000000000000000000 kg" ∧
    formatNumeric (.num .nan) "kg" = .ok "NaN kg" ∧
    formatNumeric (.num (.infinity true)) "kg" = .ok "-Infinity kg" ∧
    DemographicsTab (.obj [("age", .num 0), ("gender", .str "female")]) =
      .ok (.elem "div" [] none
        [.elem "Row" [("className", "g-3")] none
          [.elem "Col" [("md", "6")] none
             [.elem "p" [] none
               [.elem "strong" [] none [.text "Age:"], .text " ", .expr (.str "0 years")]],
           .elem "Col" [("md", "6")] none
             [.elem "p" [] none
               [.elem "strong" [] none [.text "Gender:"], .text " ", .expr (.str "female")]],
           .elem "Col" [("md", "6")] none
             [.elem "p" [] none
               [.elem "strong" [] none [.text "Weight:"], .text " ",
                .expr (.str "Not provided")]],
           .elem "Col" [("md", "6")] none
             [.elem "p" [] none
               [.elem "strong" [] none [.text "Height:"], .text " ",
                .expr (.str "Not provided")]]]]) := by
  have hne : formatNumeric (.num x) u ≠ .ok "Not provided" := by
    intro h
    exact numeral_ne_notProvided x u (Except.ok.inj h)
  refine ⟨rfl, rfl, rfl, hne, hne, rfl, rfl, ⟨_, rfl, ?_⟩, rfl, rfl, rfl, rfl, rfl, rfl, rfl,
    rfl, rfl, rfl, rfl⟩
  show '0' ∈ ("0" ++ " " ++ u).data
  simp [String.data_append]

/-! ## Keys of diagnosis items (C4) -/

theorem append_left_cancel (p s t : String) (h : p ++ s = p ++ t) : s = t := by
  have h2 := congrArg String.data h
  simp only [String.data_append] at h2
  exact String.ext (List.append_cancel_left h2)

theorem getDiagKey_str (s : String) (i : Nat) : getDiagKey (.str s) i = .ok ("s:" ++ s) := rfl

theorem getDiagKey_nonString (d : JsVal) (i : Nat) (h : isString d = false) :
    getDiagKey d i =
      if truthy (firstIdentifier d) then
        (match toStr (firstIdentifier d) with
          | .ok s => .ok ("o:" ++ s)
          | .error e => .error e)
      else .ok ("idx:" ++ indexToString i) := by
  cases d with
  | str s => simp [isString] at h
  | undefined => rfl
  | null => rfl
  | bool b => cases b <;> rfl
  | num n =>
    have hf : firstIdentifier (.num n) = .undefined := rfl
    simp [getDiagKey, hf, truthy]
  | arr xs => rfl
  | obj fs =>
    simp only [getDiagKey, truthy, Bool.true_and]
    split
    · cases toStr (firstIdentifier (.obj fs)) <;> rfl
    · rfl

/-- The three shapes a key of `getDiagKey` can take. -/
theorem getDiagKey_shape (d : JsVal) (i : Nat) :
    (∃ s, d = .str s ∧ getDiagKey d i = .ok ("s:" ++ s)) ∨
    (isString d = false ∧ truthy (firstIdentifier d) = true ∧
      ((∃ t, toStr (firstIdentifier d) = .ok t ∧ getDiagKey d i = .ok ("o:" ++ t)) ∨
       (∃ e, toStr (firstIdentifier d) = .error e ∧ getDiagKey d i = .error e))) ∨
    (isString d = false ∧ truthy (firstIdentifier d) = false ∧
      getDiagKey d i = .ok ("idx:" ++ indexToString i)) := by
  by_cases hs : isString d = true
  · cases d <;> simp [isString] at hs
    exact Or.inl ⟨_, rfl, rfl⟩
  · have hs' : isString d = false := by simpa using hs
    by_cases ht : truthy (firstIdentifier d) = true
    · refine Or.inr (Or.inl ⟨hs', ht, ?_⟩)
      rw [getDiagKey_nonString d i hs', if_pos ht]
      cases h : toStr (firstIdentifier d) with
      | ok t => exact Or.inl ⟨t, rfl, rfl⟩
      | error e => exact Or.inr ⟨e, rfl, rfl⟩
    · have ht' : truthy (firstIdentifier d) = false := by simpa using ht
      refine Or.inr (Or.inr ⟨hs', ht', ?_⟩)
      rw [getDiagKey_nonString d i hs', if_neg ht]

theorem tag_s_ne_o (s t : String) : "s:" ++ s ≠ "o:" ++ t := by
  intro h
  have h2 := congrArg String.data h
  simp only [String.data_append] at h2
  exact absurd (List.cons.inj h2).1 (by decide)

theorem tag_s_ne_idx (s t : String) : "s:" ++ s ≠ "idx:" ++ t := by
  intro h
  have h2 := congrArg String.data h
  simp only [String.data_append] at h2
  exact absurd (List.cons.inj h2).1 (by decide)

theorem tag_o_ne_idx (s t : String) : "o:" ++ s ≠ "idx:" ++ t := by
  intro h
  have h2 := congrArg String.data h
  simp only [String.data_append] at h2
  exact absurd (List.cons.inj h2).1 (by decide)

/-- Two items at distinct positions receive the same key only when both are
the same bare string or both carry a truthy identifying value with the same
string form. -/
theorem getDiagKey_collision (a b : JsVal) (i j : Nat) (hij : i ≠ j)
    (hi : i < 10 ^ 21) (hj : j < 10 ^ 21) (h : getDiagKey a i = getDiagKey b j) :
    (∃ s, a = .str s ∧ b = .str s) ∨
    (isString a = false ∧ isString b = false ∧
      truthy (firstIdentifier a) = true ∧ truthy (firstIdentifier b) = true ∧
      toStr (firstIdentifier a) = toStr (firstIdentifier b)) := by
  rcases getDiagKey_shape a i with ⟨s, ha, ka⟩ | ⟨sa, ta, ⟨t, ea, ka⟩ | ⟨e, ea, ka⟩⟩ | ⟨sa, ta, ka⟩ <;>
  rcases getDiagKey_shape b j with ⟨s', hb, kb⟩ | ⟨sb, tb, ⟨t', eb, kb⟩ | ⟨e', eb, kb⟩⟩ | ⟨sb, tb, kb⟩ <;>
  rw [ka, kb] at h
  · have := append_left_cancel _ _ _ (Except.ok.inj h)
    subst this
    exact Or.inl ⟨s, ha, hb⟩
  · exact absurd (Except.ok.inj h) (tag_s_ne_o _ _)
  · cases h
  · exact absurd (Except.ok.inj h) (tag_s_ne_idx _ _)
  · exact absurd (Except.ok.inj h).symm (tag_s_ne_o _ _)
  · have := append_left_cancel _ _ _ (Except.ok.inj h)
    subst this
    exact Or.inr ⟨sa, sb, ta, tb, ea.trans eb.symm⟩
  · cases h
  · exact absurd (Except.ok.inj h) (tag_o_ne_idx _ _)
  · cases h
  · cases h
  · have := Except.error.inj h
    subst this
    exact Or.inr ⟨sa, sb, ta, tb, ea.trans eb.symm⟩
  · cases h
  · exact absurd (Except.ok.inj h).symm (tag_s_ne_idx _ _)
  · exact absurd (Except.ok.inj h).symm (tag_o_ne_idx _ _)
  · cases h
  · exact absurd
      (indexToString_injective _ _ hi hj (append_left_cancel _ _ _ (Except.ok.inj h))) hij

theorem firstIdentifier_eq_firstNonNull (d : JsVal)
    (h : isNullish (firstIdentifier d) = false) : firstIdentifier d = firstNonNull d := by
  revert h
  unfold firstIdentifier firstNonNull orElse
  generalize optProp d "id" = a
  generalize optProp d "code" = b
  generalize optProp d "name" = c
  cases ha : isNullish a <;> cases hb : isNullish b <;> cases hc : isNullish c <;>
    simp [List.find?, ha, hb, hc]

theorem not_nullish_of_truthy (v : JsVal) (h : truthy v = true) : isNullish v = false := by
  cases v <;> simp [truthy] at h <;> rfl

/-- C4 (counterexample): in the list `["Flu", "Flu"]` the items at positions 0
and 1 receive the same key `s:Flu`; so do two structured items with the same
name. -/
theorem duplicate_items_share_key :
    getDiagKey (.str "Flu") 0 = getDiagKey (.str "Flu") 1 ∧
    getDiagKey (.str "Flu") 0 = .ok "s:Flu" ∧
    getDiagKey (.obj [("name", .str "Flu")]) 0 = getDiagKey (.obj [("name", .str "Flu")]) 1 ∧
    getDiagKey (.obj [("name", .str "Flu")]) 0 = .ok "o:Flu" :=
  ⟨rfl, rfl, rfl, rfl⟩

/-- C4 (amended): for every list of items (a JavaScript array, of fewer than
`2 ^ 32` elements) and every two distinct positions in it, the keys
`getDiagKey` assigns differ, provided the two items are not the same bare
string and are not two items whose first non-null of `id`, `code`, `name` has
the same string form. -/
theorem getDiagKey_pairwise_distinct (items : List JsVal) (i j : Nat)
    (hlen : items.length < 2 ^ 32)
    (hi : i < items.length) (hj : j < items.length) (hij : i ≠ j)
    (hstr : ∀ s, items[i] = .str s → items[j] ≠ .str s)
    (hid : isNullish (firstNonNull items[i]) = false →
      isNullish (firstNonNull items[j]) = false →
      toStr (firstNonNull items[i]) ≠ toStr (firstNonNull items[j])) :
    getDiagKey items[i] i ≠ getDiagKey items[j] j := by
  intro h
  have hi' : i < 10 ^ 21 := by
    have : (2 : Nat) ^ 32 < 10 ^ 21 := by decide
    omega
  have hj' : j < 10 ^ 21 := by
    have : (2 : Nat) ^ 32 < 10 ^ 21 := by decide
    omega
  rcases getDiagKey_collision _ _ i j hij hi' hj' h with ⟨s, ha, hb⟩ | ⟨_, _, ta, tb, e⟩
  · exact hstr s ha hb
  · have na := not_nullish_of_truthy _ ta
    have nb := not_nullish_of_truthy _ tb
    have ea := firstIdentifier_eq_firstNonNull _ na
    have eb := firstIdentifier_eq_firstNonNull _ nb
    rw [ea] at na e
    rw [eb] at nb e
    exact hid na nb e

/-- C4 (witness): in the list of a bare string "Flu", a structured item named
"Flu" and an item without any identifying field, the items at positions 0 and
1 get distinct keys. -/
theorem getDiagKey_pairwise_distinct_witness :
    getDiagKey (.str "Flu") 0 ≠ getDiagKey (.obj [("name", .str "Flu")]) 1 :=
  getDiagKey_pairwise_distinct
    [.str "Flu", .obj [("name", .str "Flu")], .obj []] 0 1 (by decide) (by decide) (by decide)
    (by decide) (fun s _ h => by cases h) (fun h => by cases h)

/-! ## Fetch outcome and the view shown (C5) -/

theorem getProp_of_not_nullish (v : JsVal) (k : String) (h : isNullish v = false) :
    getProp v k = .ok (optProp v k) := by
  cases v <;> simp [isNullish] at h <;> rfl

theorem truthy_jsOr_fallback (m : JsVal) :
    truthy (jsOr m (.str "Failed to load patient record")) = true := by
  unfold jsOr
  split
  · assumption
  · rfl

theorem loadPatient_resolved_truthy (st : ViewState) (data : JsVal)
    (h : truthy data = true) :
    loadPatient st (.resolved data) = { patient := data, isLoading := false, error := .null } := by
  simp [loadPatient, finishLoad, h, beginLoad]

theorem upperCaseLang_ok (engine : Engine) (lang : JsVal)
    (h : isNullish lang = true ∨ isString lang = true) :
    upperCaseLang engine lang =
      .ok (match lang with
        | .str s => .str (engine.toUpperCase s)
        | _ => .undefined) := by
  cases lang <;> simp [isNullish, isString] at h <;> rfl

theorem renderPane_ok (tab : Except JsError Jsx) (v : Jsx) (h : tab = .ok v)
    (hr : renderable v = true) : renderPane tab = .ok v := by
  subst h
  simp [renderPane, hr]

/-- The patient record view is not returned when its render body throws: on a
document whose `lang` is a number, on one whose medical-reports files hold a
`null` entry, and on one whose identifier is an object. -/
theorem loadedView_render_throws :
    PatientView plainEngine (loadPatient ViewState.initial
        (.resolved (.obj [("patient_id", .str "p1"), ("lang", .num 5)]))) =
      .error (.typeError "patient.lang?.toUpperCase is not a function") ∧
    PatientView plainEngine (loadPatient ViewState.initial
        (.resolved (.obj [("patient_id", .str "p1"),
          ("formData", .obj [("medicalReports", .obj [("files", .arr [.null])])])]))) =
      .error (.typeError "Cannot read properties of null (reading id)") ∧
    PatientView plainEngine (loadPatient ViewState.initial
        (.resolved (.obj [("patient_id", .obj [])]))) =
      .error (.reactError "Objects are not valid as a React child") :=
  ⟨rfl, rfl, rfl⟩

/-- C5 (counterexample): after a load whose fetch resolved with `null` (or
`undefined`), from the initial state, `PatientView` shows the Error view with
the message "Patient record not found", not the NotFound view. -/
theorem nullDocument_shows_errorView :
    PatientView plainEngine (loadPatient ViewState.initial (.resolved .null)) =
      .ok (.error (.str "Patient record not found")) ∧
    PatientView plainEngine (loadPatient ViewState.initial (.resolved .undefined)) =
      .ok (.error (.str "Patient record not found")) :=
  ⟨rfl, rfl⟩

/-- C5 (amended): once a load has finished, from any earlier state: a fetch
that resolved with a falsy document (`null` and `undefined` among them) shows
the Error view with the message "Patient record not found"; a fetch that
rejected with a value other than `null` and `undefined` shows the Error view
with that value's `message` when it is truthy and "Failed to load patient
record" otherwise, the message being a value React can show; a fetch that
resolved with a truthy document shows the Loaded view, with the identifier, the
upper-cased language or "N/A", the formatted date, the completion flag, the
eight tab views and the raw dump, when the view renders: `lang` is absent or a
string, the identifier and the date are values React can show, and each of the
eight tabs returns, on its slice of the form data, a tree React can render. -/
theorem patientView_after_load (engine : Engine) (st : ViewState) :
    (∀ data, truthy data = false →
      PatientView engine (loadPatient st (.resolved data)) =
        .ok (.error (.str "Patient record not found"))) ∧
    (∀ err, isNullish err = false → validChild (optProp err "message") = true →
      PatientView engine (loadPatient st (.rejected err)) =
        .ok (.error (if truthy (optProp err "message") then optProp err "message"
          else .str "Failed to load patient record"))) ∧
    (∀ data formData created v1 v2 v3 v4 v5 v6 v7 v8, truthy data = true →
      (isNullish (optProp data "lang") = true ∨ isString (optProp data "lang") = true) →
      validChild (optProp data "patient_id") = true →
      created =
        (if truthy (optProp data "created_at") then
          match engine.toLocaleDateString (optProp data "created_at") with
          | some formatted => .str formatted
          | none => optProp data "created_at"
        else .str "N/A") →
      validChild created = true →
      formData = (if isNullish (optProp data "formData") then .obj []
        else optProp data "formData") →
      DemographicsTab (optProp formData "demographics") = .ok v1 → renderable v1 = true →
      LifestyleTab (optProp formData "lifestyle") = .ok v2 → renderable v2 = true →
      SymptomsTab (optProp formData "symptoms") = .ok v3 → renderable v3 = true →
      MentalHealthTab (optProp formData "mental") = .ok v4 → renderable v4 = true →
      MedicalReportsTab (optProp formData "medicalReports") = .ok v5 →
      renderable v5 = true →
      WearableDataTab (optProp formData "wearableData") = .ok v6 → renderable v6 = true →
      DiagnosisTab engine.strGtZero (optProp formData "diagnosis") = .ok v7 →
      renderable v7 = true →
      ExamsTab engine.strGtZero (optProp formData "exams") = .ok v8 → renderable v8 = true →
      PatientView engine (loadPatient st (.resolved data)) =
        .ok (.loaded
          { patientId := optProp data "patient_id",
            language :=
              (match optProp data "lang" with
                | .str s =>
                  if engine.toUpperCase s = "" then .str "N/A"
                  else .str (engine.toUpperCase s)
                | _ => .str "N/A"),
            created := created,
            complete := truthy (optProp data "is_complete"),
            panes := [("demographics", v1), ("lifestyle", v2), ("symptoms", v3),
              ("mental", v4), ("medical", v5), ("wearable", v6), ("diagnosis", v7),
              ("exams", v8)],
            rawJson :=
              (match jsonSerialize "" data with
                | some dump => .str dump
                | none => .undefined) })) := by
  refine ⟨?_, ?_, ?_⟩
  · intro data h
    simp [loadPatient, finishLoad, h]
    rfl
  · intro err h hv
    have hvalid : validChild (jsOr (optProp err "message")
        (.str "Failed to load patient record")) = true := by
      unfold jsOr
      split
      · exact hv
      · rfl
    simp only [loadPatient, finishLoad, catchFinally, getProp_of_not_nullish err _ h,
      PatientView, beginLoad]
    simp [truthy_jsOr_fallback, hvalid]
    rfl
  · intro data formData created v1 v2 v3 v4 v5 v6 v7 v8 h hlang hid hc hcv hfd
      h1 r1 h2 r2 h3 r3 h4 r4 h5 r5 h6 r6 h7 r7 h8 r8
    have hn : truthy JsVal.null = false := rfl
    have hfd' : orElse (optProp data "formData") (.obj []) = formData := by
      rw [hfd]; rfl
    have hc' : formatDate engine (optProp data "created_at") = created := by
      rw [hc]
      unfold formatDate
      cases truthy (optProp data "created_at") <;> rfl
    rw [loadPatient_resolved_truthy st data h]
    simp only [PatientView, hn, h, field, hfd', hc', upperCaseLang_ok engine _ hlang,
      renderPanes, renderPane_ok _ _ h1 r1, renderPane_ok _ _ h2 r2, renderPane_ok _ _ h3 r3,
      renderPane_ok _ _ h4 r4, renderPane_ok _ _ h5 r5, renderPane_ok _ _ h6 r6,
      renderPane_ok _ _ h7 r7, renderPane_ok _ _ h8 r8, hid, hcv]
    simp only [Bool.false_eq_true, if_false, Bool.not_true, bind, Except.bind, pure,
      Except.pure]
    congr 3
    · rcases hlang with hl | hl <;>
        (revert hl; generalize optProp data "lang" = lang; intro hl
         cases lang <;> simp [isNullish, isString] at hl <;>
           simp [jsOr, truthy])
    · unfold jsonStringify
      cases jsonSerialize "" data <;> rfl

/-- C5 (witness): the three cases at concrete outcomes: a `null` document, a
failure with the message "Network Error", a failure without a message, and a
document with a language, a creation date and symptoms. -/
theorem patientView_after_load_witness :
    PatientView plainEngine (loadPatient ViewState.initial (.resolved .null)) =
      .ok (.error (.str "Patient record not found")) ∧
    PatientView plainEngine (loadPatient ViewState.initial
        (.rejected (.obj [("message", .str "Network Error")]))) =
      .ok (.error (.str "Network Error")) ∧
    PatientView plainEngine (loadPatient ViewState.initial (.rejected (.obj []))) =
      .ok (.error (.str "Failed to load patient record")) ∧
    PatientView plainEngine (loadPatient ViewState.initial
        (.resolved (.obj [("patient_id", .str "p1"), ("lang", .str "en"),
          ("created_at", .str "2026-01-05"), ("is_complete", .bool true),
          ("formData", .obj [("symptoms", .obj [("symptoms", .str " cough ")])])]))) =
      .ok (.loaded
        { patientId := .str "p1",
          language := .str "EN",
          created := .str "January 5, 2026",
          complete := true,
          panes :=
            [("demographics", .elem "p" [("className", "text-muted")] none
                [.text "No data available"]),
             ("lifestyle", .elem "p" [("className", "text-muted")] none
                [.text "No data available"]),
             ("symptoms", .elem "div" [] none
                [.elem "p" [] none [.elem "strong" [] none [.text "Symptoms:"]],
                 .elem "p" [("className", "bg-light p-3 rounded")] none
                   [.expr (.str "cough")]]),
             ("mental", .elem "p" [("className", "text-muted")] none
                [.text "No data available"]),
             ("medical", .elem "p" [("className", "text-muted")] none
                [.text "No data available"]),
             ("wearable", .elem "p" [("className", "text-muted")] none
                [.text "No data available"]),
             ("diagnosis", .elem "p" [("className", "text-muted")] none
                [.text "No data available"]),
             ("exams", .elem "p" [("className", "text-muted")] none
                [.text "No data available"])],
          rawJson := .str ("\x7b\n  \"patient_id\": \"p1\",\n  \"lang\": \"en\",\n" ++
            "  \"created_at\": \"2026-01-05\",\n  \"is_complete\": true,\n" ++
            "  \"formData\": \x7b\n    \"symptoms\": \x7b\n      \"symptoms\": \" cough \"\n" ++
            "    \x7d\n  \x7d\n\x7d") }) :=
  have h := patientView_after_load plainEngine ViewState.initial
  ⟨h.1 .null rfl, h.2.1 (.obj [("message", .str "Network Error")]) rfl rfl,
   h.2.1 (.obj []) rfl rfl,
   h.2.2
     (.obj [("patient_id", .str "p1"), ("lang", .str "en"),
       ("created_at", .str "2026-01-05"), ("is_complete", .bool true),
       ("formData", .obj [("symptoms", .obj [("symptoms", .str " cough ")])])])
     _ _ _ _ _ _ _ _ _ _ rfl (Or.inr rfl) rfl rfl rfl rfl
     rfl rfl rfl rfl rfl rfl rfl rfl rfl rfl rfl rfl rfl rfl rfl rfl⟩

/-! ## Symptom normalisation (C6) -/

theorem filter_map_trim (xs : List JsVal) :
    ((xs.map fun s => match s with
        | .str t => jsTrim t
        | _ => "").filter fun t => t != "") =
      xs.filterMap fun e =>
        match e with
        | .str t => if jsTrim t = "" then none else some (jsTrim t)
        | _ => none := by
  induction xs with
  | nil => rfl
  | cons x rest ih =>
    cases x with
    | str t =>
      by_cases ht : jsTrim t = ""
      · simp [List.filter_cons, ht, ih]
      · simp [List.filter_cons, ht, ih]
    | _ => simp [List.filter_cons, ih]

theorem normalizeSymptoms_arr (xs : List JsVal) :
    normalizeSymptoms (.arr xs) = normalizeSymptomsSpec xs := by
  show String.intercalate ", " _ = String.intercalate ", " _
  rw [filter_map_trim]

theorem textPanel_ne_mutedP (heading msg : String) (body : JsVal) :
    textPanel heading body ≠ mutedP msg := by
  intro h
  simp only [textPanel, mutedP, Jsx.elem.injEq] at h
  exact absurd h.1 (by decide)

/-- C6: on a sequence, `normalizeSymptoms` returns the entries that are
strings, each trimmed, those empty after trimming removed, joined with a comma
and a space in order, so `["  cough ", "", "fever"]` gives "cough, fever"; on a
string it returns the trimmed string; on any other value it returns the empty
string.  `SymptomsTab` returns the no-data view exactly when the normalized
text is empty, as for the symptoms `""`, `[]` and an absent field. -/
theorem normalizeSymptoms_spec :
    (∀ xs, normalizeSymptoms (.arr xs) = normalizeSymptomsSpec xs) ∧
    normalizeSymptoms (.arr [.str "  cough ", .str "", .str "fever"]) = "cough, fever" ∧
    (∀ s, normalizeSymptoms (.str s) = jsTrim s) ∧
    (∀ v, isArray v = false → isString v = false → normalizeSymptoms v = "") ∧
    (∀ data, SymptomsTab data = .ok (mutedP "No data available") ↔
      normalizeSymptoms (optProp data "symptoms") = "") ∧
    (∀ data, normalizeSymptoms (optProp data "symptoms") ≠ "" →
      SymptomsTab data =
        .ok (textPanel "Symptoms:" (.str (normalizeSymptoms (optProp data "symptoms"))))) ∧
    SymptomsTab (.obj [("symptoms", .str "")]) = .ok (mutedP "No data available") ∧
    SymptomsTab (.obj [("symptoms", .arr [])]) = .ok (mutedP "No data available") ∧
    SymptomsTab (.obj []) = .ok (mutedP "No data available") := by
  refine ⟨normalizeSymptoms_arr, rfl, fun _ => rfl, ?_, ?_, ?_, rfl, rfl, rfl⟩
  · intro v ha hs
    cases v <;> simp [isArray, isString] at ha hs <;> rfl
  · intro data
    unfold SymptomsTab
    constructor
    · intro h
      by_contra hne
      simp only [hne, if_false] at h
      exact textPanel_ne_mutedP _ _ _ (Except.ok.inj h)
    · intro h
      simp [h]
  · intro data hne
    simp [SymptomsTab, hne]

/-- C6 (witness): the cases of the statement at a number, at an object and at
a slice with two symptoms. -/
theorem normalizeSymptoms_spec_witness :
    normalizeSymptoms (.num 7) = "" ∧
    normalizeSymptoms (.obj [("a", .null)]) = "" ∧
    SymptomsTab (.obj [("symptoms", .arr [.str " cough", .num 1, .str "fever "])]) =
      .ok (textPanel "Symptoms:" (.str "cough, fever")) :=
  ⟨normalizeSymptoms_spec.2.2.2.1 _ rfl rfl, normalizeSymptoms_spec.2.2.2.1 _ rfl rfl,
   normalizeSymptoms_spec.2.2.2.2.2.1 _ (by decide)⟩

/-! ## Wearable data (C7) -/

theorem wearableIsEmpty_eq_blankDump (v : JsVal) : wearableIsEmpty v = blankDump v := by
  cases v with
  | arr xs => cases xs <;> rfl
  | obj fs => cases fs <;> rfl
  | _ => rfl

theorem stringifySafe_of_not_blank (v : JsVal) (h : blankDump v = false) :
    ∃ dump, jsonSerialize "" v = some dump ∧ stringifySafe v = .str dump := by
  cases v with
  | undefined => simp [blankDump] at h
  | null => simp [blankDump] at h
  | bool b => exact ⟨_, rfl, rfl⟩
  | num n => exact ⟨_, rfl, rfl⟩
  | str s => exact ⟨_, rfl, rfl⟩
  | arr xs =>
    unfold stringifySafe jsonStringify
    rw [jsonSerialize]
    split <;> exact ⟨_, rfl, rfl⟩
  | obj fs =>
    unfold stringifySafe jsonStringify
    rw [jsonSerialize]
    split <;> exact ⟨_, rfl, rfl⟩

theorem wearablePanel_not_noData (v : JsVal) : isNoDataView (wearablePanel v) = false := rfl

/-- C7: for a present wearable slice that is not skipped, the view is the
no-data view, reading "No wearable data available", if and only if the nested
value is `null`, `undefined`, `[]` or the empty mapping; every other value is
shown under the heading "Wearable Data:" as its pretty-printed dump inside
`<pre>`.  The value `{heartRate: 0}` yields the dump that holds
`"heartRate": 0`, and a nested value is dumped with two-space indentation,
numbers in their JavaScript string form, strings quoted and escaped. -/
theorem wearable_noData_iff (data : JsVal) (hp : truthy data = true)
    (hs : truthy (field data "skipped") = false) :
    ((∃ v, WearableDataTab data = .ok v ∧ isNoDataView v = true) ↔
      blankDump (field data "data") = true) ∧
    (blankDump (field data "data") = true →
      WearableDataTab data =
        .ok (.elem "p" [("className", "text-muted")] none
          [.text "No wearable data available"])) ∧
    (blankDump (field data "data") = false →
      ∃ dump, jsonSerialize "" (field data "data") = some dump ∧
        WearableDataTab data =
          .ok (.elem "div" [] none
            [.elem "p" [] none [.elem "strong" [] none [.text "Wearable Data:"]],
             .elem "div" [("className", "bg-light p-3 rounded")] none
               [.elem "pre" [("style", "fontSize: 0.85rem")] none [.expr (.str dump)]]])) ∧
    jsonSerialize "" (.obj [("heartRate", .num 0)]) = some "\x7b\n  \"heartRate\": 0\n\x7d" ∧
    jsonSerialize ""
        (.obj [("steps", .arr [.num 1200, .num 0, .num (JsNum.decimal true 725 2)]),
          ("hr", .obj [("avg", .num (JsNum.decimal false 725 2)),
            ("max", .num (JsNum.decimal false 1 22)), ("note", .str "ok\n\"x\""),
            ("gaps", .arr []), ("meta", .obj []), ("nan", .num .nan), ("on", .bool true),
            ("off", .null), ("skip", .undefined)])]) =
      some ("\x7b\n  \"steps\": [\n    1200,\n    0,\n    -72.5\n  ],\n  \"hr\": \x7b\n" ++
        "    \"avg\": 72.5,\n    \"max\": 1e+21,\n    \"note\": \"ok\\n\\\"x\\\"\",\n" ++
        "    \"gaps\": [],\n    \"meta\": \x7b\x7d,\n    \"nan\": null,\n    \"on\": true,\n" ++
        "    \"off\": null\n  \x7d\n\x7d") ∧
    jsonSerialize ""
        (.obj [("ctl", .str "a\x01\t\x1fb\\c/é"),
          ("list", .arr [.arr [.num 1, .undefined], .obj [("k", .bool false)]])]) =
      some ("\x7b\n  \"ctl\": \"a\\u0001\\t\\u001fb\\\\c/é\",\n  \"list\": [\n    [\n" ++
        "      1,\n      null\n    ],\n    \x7b\n      \"k\": false\n    \x7d\n  ]\n\x7d") ∧
    WearableDataTab (.obj [("data", .obj [("heartRate", .num 0)])]) =
      .ok (.elem "div" [] none
        [.elem "p" [] none [.elem "strong" [] none [.text "Wearable Data:"]],
         .elem "div" [("className", "bg-light p-3 rounded")] none
           [.elem "pre" [("style", "fontSize: 0.85rem")] none
             [.expr (.str "\x7b\n  \"heartRate\": 0\n\x7d")]]]) := by
  have hblank : blankDump (field data "data") = true →
      WearableDataTab data = .ok (mutedP "No wearable data available") := by
    intro hb
    rw [WearableDataTab_present data hp]
    exact wearableView_blank _ _ hs hb
  have hfull : blankDump (field data "data") = false →
      ∃ dump, jsonSerialize "" (field data "data") = some dump ∧
        WearableDataTab data = .ok (wearablePanel (.str dump)) := by
    intro hb
    obtain ⟨dump, h1, h2⟩ := stringifySafe_of_not_blank _ hb
    refine ⟨dump, h1, ?_⟩
    rw [WearableDataTab_present data hp]
    simp [wearableView, hs, wearableIsEmpty_eq_blankDump, hb, h2]
  refine ⟨⟨?_, fun hb => ⟨_, hblank hb, rfl⟩⟩, hblank, hfull, rfl, rfl, rfl, rfl⟩
  rintro ⟨v, hv, hnd⟩
  by_contra hb
  have hb' : blankDump (field data "data") = false := by simpa using hb
  obtain ⟨dump, _, h2⟩ := hfull hb'
  rw [h2] at hv
  have := Except.ok.inj hv
  subst this
  simp [wearablePanel_not_noData] at hnd

/-- C7 (witness): the statement at the slice `{data: {heartRate: 0}}`, which is
present, not skipped and not empty. -/
theorem wearable_noData_iff_witness :
    ∃ dump, jsonSerialize "" (.obj [("heartRate", .num 0)]) = some dump ∧
      WearableDataTab (.obj [("data", .obj [("heartRate", .num 0)])]) =
        .ok (.elem "div" [] none
          [.elem "p" [] none [.elem "strong" [] none [.text "Wearable Data:"]],
           .elem "div" [("className", "bg-light p-3 rounded")] none
             [.elem "pre" [("style", "fontSize: 0.85rem")] none [.expr (.str dump)]]]) :=
  (wearable_noData_iff (.obj [("data", .obj [("heartRate", .num 0)])]) rfl rfl).2.2.1 rfl

/-! ## Malformed slices (C8) -/

/-- C8 (failing inputs): `MedicalReportsTab` throws on a `files` sequence that
holds a `null` entry, and `DiagnosisTab` and `ExamsTab` throw when
`suggestions` or `selected` is a non-empty string rather than a sequence; no
view is returned. -/
theorem malformed_slice_throws (sp : String → Bool) :
    MedicalReportsTab (.obj [("files", .arr [.null])]) =
      .error (.typeError "Cannot read properties of null (reading id)") ∧
    DiagnosisTab sp (.obj [("suggestions", .str "flu")]) =
      .error (.typeError "map is not a function") ∧
    DiagnosisTab sp (.obj [("selected", .str "flu")]) =
      .error (.typeError "map is not a function") ∧
    ExamsTab sp (.obj [("suggestions", .str "x-ray")]) =
      .error (.typeError "map is not a function") ∧
    ExamsTab sp (.obj [("selected", .str "x-ray")]) =
      .error (.typeError "map is not a function") :=
  ⟨rfl, rfl, rfl, rfl, rfl⟩

/-! ## Priority of the diagnosis key (C9) -/

/-- C9 (failing inputs): a structured item whose `id` is the number 0, or the
empty string, is not keyed by that `id`: `getDiagKey` falls through to the
index key, also when a `name` is present.  The sibling `getExamKey` keys the
same item by its `id`. -/
theorem getDiagKey_zero_id_uses_index :
    getDiagKey (.obj [("id", .num 0)]) 3 = .ok "idx:3" ∧
    getDiagKey (.obj [("id", .num 0), ("name", .str "Flu")]) 3 = .ok "idx:3" ∧
    getDiagKey (.obj [("id", .str "")]) 3 = .ok "idx:3" ∧
    getDiagKey (.obj [("id", .num 7), ("name", .str "Flu")]) 3 = .ok "o:7" ∧
    getExamKey (.obj [("id", .num 0)]) 3 = .ok (.str "0") :=
  ⟨rfl, rfl, rfl, rfl, rfl⟩

/-! ## Keys of exam items (C10) -/

/-- C10 (failing inputs): `getExamKey` gives a bare string and a structured
item the same key when the string equals the item's `id` in string form, its
`name`, or its index fallback. -/
theorem getExamKey_string_collides :
    getExamKey (.str "5") 0 = getExamKey (.obj [("id", .num 5)]) 1 ∧
    getExamKey (.str "Flu") 0 = getExamKey (.obj [("name", .str "Flu")]) 1 ∧
    getExamKey (.str "exam-1") 0 = getExamKey (.obj []) 1 ∧
    getExamKey (.str "5") 0 = .ok (.str "5") :=
  ⟨rfl, rfl, rfl, rfl⟩

/-! ## Labels of list items (C11) -/

theorem orElse_of_not_nullish (a b : JsVal) (h : isNullish a = false) : orElse a b = a := by
  simp [orElse, h]

theorem orElse_of_nullish (a b : JsVal) (h : isNullish a = true) : orElse a b = b := by
  simp [orElse, h]

theorem getDiagLabel_nonString (d : JsVal) (h : isString d = false) :
    getDiagLabel d = orElse (optProp d "name") (.str "") := by
  cases d <;> simp [isString] at h <;> rfl

theorem getExamLabel_nonString (d : JsVal) (h : isString d = false) :
    getExamLabel d = orElse (optProp d "name") (.str "Unknown exam") := by
  cases d <;> simp [isString] at h <;> rfl

/-- C11: for a bare string both `getDiagLabel` and `getExamLabel` return the
string itself; for an item that is not a string and has a non-null `name`, both
return that name; for an item that is not a string and whose `name` is `null`
or missing, the `null` and `undefined` items among them, `getDiagLabel`
returns the empty string and `getExamLabel` returns "Unknown exam". -/
theorem label_resolution :
    (∀ s, getDiagLabel (.str s) = .str s ∧ getExamLabel (.str s) = .str s) ∧
    (∀ item, isString item = false → isNullish (optProp item "name") = false →
      getDiagLabel item = optProp item "name" ∧ getExamLabel item = optProp item "name") ∧
    (∀ item, isString item = false → isNullish (optProp item "name") = true →
      getDiagLabel item = .str "" ∧ getExamLabel item = .str "Unknown exam") ∧
    (∀ fs name, lookupField "name" fs = name → isNullish name = false →
      getDiagLabel (.obj fs) = name ∧ getExamLabel (.obj fs) = name) ∧
    getDiagLabel .null = .str "" ∧ getExamLabel .null = .str "Unknown exam" ∧
    getDiagLabel .undefined = .str "" ∧ getExamLabel .undefined = .str "Unknown exam" := by
  refine ⟨fun _ => ⟨rfl, rfl⟩, ?_, ?_, ?_, rfl, rfl, rfl, rfl⟩
  · intro item hs hn
    rw [getDiagLabel_nonString item hs, getExamLabel_nonString item hs]
    exact ⟨orElse_of_not_nullish _ _ hn, orElse_of_not_nullish _ _ hn⟩
  · intro item hs hn
    rw [getDiagLabel_nonString item hs, getExamLabel_nonString item hs]
    exact ⟨orElse_of_nullish _ _ hn, orElse_of_nullish _ _ hn⟩
  · intro fs name hl hn
    subst hl
    exact ⟨orElse_of_not_nullish _ _ hn, orElse_of_not_nullish _ _ hn⟩

/-- C11 (witness): a structured item named "Flu" is labelled "Flu" by both
resolvers, and a structured item that has only an `id` is labelled with the
empty string by `getDiagLabel` and with "Unknown exam" by `getExamLabel`. -/
theorem label_resolution_witness :
    (getDiagLabel (.obj [("id", .num 1), ("name", .str "Flu")]) = .str "Flu" ∧
      getExamLabel (.obj [("id", .num 1), ("name", .str "Flu")]) = .str "Flu") ∧
    (getDiagLabel (.obj [("id", .num 1)]) = .str "" ∧
      getExamLabel (.obj [("id", .num 1)]) = .str "Unknown exam") :=
  ⟨label_resolution.2.1 (.obj [("id", .num 1), ("name", .str "Flu")]) rfl rfl,
   label_resolution.2.2.1 (.obj [("id", .num 1)]) rfl rfl⟩

end Hiperhealth
